import Mathlib

/-!
Verification of the recipe-repository scraper core.

This file gives a shallow embedding, in Lean 4, of the scraper's data
model and control flow (src/scraper/models.py, src/scraper/extractors.py,
src/scraper/repository.py, src/scraper/service.py) and proves or refutes
the frozen specification claims about it.

Modelling conventions:
* Python `Optional[str]` becomes `Option String`, Python lists become
  `List`, Python dicts become association lists looked up by first key.
* Python truthiness is modelled explicitly (`""`, `[]`, `None` are falsy).
* DOM parsing (BeautifulSoup) and JSON text parsing are not embedded; a
  fetched page is modelled by the data the source code reads off it
  (selector matches, JSON-LD nodes already decoded into a `Json` value,
  sitemap `loc` entries), and each extraction routine's control flow over
  that data is translated faithfully from the source.
-/

namespace RecipeRepo

/-- JSON values as used by the scraper's structured-data pass and the
`raw` field of a recipe.  Number and boolean atoms never influence any
claim settled here, so the embedding keeps the four shapes the code
paths inspect: null, string, array and object. -/
inductive Json where
  | null : Json
  | str : String → Json
  | arr : List Json → Json
  | obj : List (String × Json) → Json
deriving Repr, Inhabited

mutual

def Json.decEq : (a b : Json) → Decidable (a = b)
  | Json.null, Json.null => isTrue rfl
  | Json.null, Json.str _ => isFalse (fun h => Json.noConfusion h)
  | Json.null, Json.arr _ => isFalse (fun h => Json.noConfusion h)
  | Json.null, Json.obj _ => isFalse (fun h => Json.noConfusion h)
  | Json.str _, Json.null => isFalse (fun h => Json.noConfusion h)
  | Json.str s, Json.str t =>
      if h : s = t then isTrue (by rw [h]) else
        isFalse (fun hh => h (Json.str.inj hh))
  | Json.str _, Json.arr _ => isFalse (fun h => Json.noConfusion h)
  | Json.str _, Json.obj _ => isFalse (fun h => Json.noConfusion h)
  | Json.arr _, Json.null => isFalse (fun h => Json.noConfusion h)
  | Json.arr _, Json.str _ => isFalse (fun h => Json.noConfusion h)
  | Json.arr xs, Json.arr ys =>
      match Json.decEqList xs ys with
      | isTrue h => isTrue (by rw [h])
      | isFalse h => isFalse (fun hh => h (Json.arr.inj hh))
  | Json.arr _, Json.obj _ => isFalse (fun h => Json.noConfusion h)
  | Json.obj _, Json.null => isFalse (fun h => Json.noConfusion h)
  | Json.obj _, Json.str _ => isFalse (fun h => Json.noConfusion h)
  | Json.obj _, Json.arr _ => isFalse (fun h => Json.noConfusion h)
  | Json.obj xs, Json.obj ys =>
      match Json.decEqKV xs ys with
      | isTrue h => isTrue (by rw [h])
      | isFalse h => isFalse (fun hh => h (Json.obj.inj hh))

def Json.decEqList : (xs ys : List Json) → Decidable (xs = ys)
  | [], [] => isTrue rfl
  | [], _ :: _ => isFalse (fun h => List.noConfusion h)
  | _ :: _, [] => isFalse (fun h => List.noConfusion h)
  | x :: xs, y :: ys =>
      match Json.decEq x y, Json.decEqList xs ys with
      | isTrue h1, isTrue h2 => isTrue (by rw [h1, h2])
      | isFalse h1, _ => isFalse (fun hh => h1 (List.cons.inj hh).1)
      | _, isFalse h2 => isFalse (fun hh => h2 (List.cons.inj hh).2)

def Json.decEqKV : (xs ys : List (String × Json)) → Decidable (xs = ys)
  | [], [] => isTrue rfl
  | [], _ :: _ => isFalse (fun h => List.noConfusion h)
  | _ :: _, [] => isFalse (fun h => List.noConfusion h)
  | (k, x) :: xs, (l, y) :: ys =>
      if hk : k = l then
        match Json.decEq x y, Json.decEqKV xs ys with
        | isTrue h1, isTrue h2 => isTrue (by rw [hk, h1, h2])
        | isFalse h1, _ =>
            isFalse (fun hh => h1 (congrArg Prod.snd (List.cons.inj hh).1))
        | _, isFalse h2 => isFalse (fun hh => h2 (List.cons.inj hh).2)
      else
        isFalse (fun hh => hk (congrArg Prod.fst (List.cons.inj hh).1))

end

instance : DecidableEq Json := Json.decEq

/-- Look up a key in a JSON object, mirroring Python `dict.get` (first
binding wins; the decoded dicts have unique keys). -/
def Json.get : Json → String → Option Json
  | Json.obj kvs, k => (kvs.lookup k)
  | _, _ => Option.none

/-- The dynamic values stored in a persisted recipe record
(`Recipe.as_record` produces exactly these shapes: `None`, `str`,
`list[str]`, and the `raw` dict). -/
inductive PVal where
  | none : PVal
  | str : String → PVal
  | list : List String → PVal
  | dict : List (String × Json) → PVal
deriving Repr, DecidableEq, Inhabited

/-- A persisted record payload: the `Dict[str, object]` produced by
`Recipe.as_record` and consumed by `Recipe.from_record`. -/
abbrev Payload := List (String × PVal)

/-- The `Recipe` dataclass of src/scraper/models.py. -/
structure Recipe where
  source_name : String
  source_url : String
  title : Option String := Option.none
  description : Option String := Option.none
  ingredients : List String := []
  instructions : List String := []
  prep_time : Option String := Option.none
  cook_time : Option String := Option.none
  total_time : Option String := Option.none
  servings : Option String := Option.none
  image : Option String := Option.none
  author : Option String := Option.none
  categories : List String := []
  tags : List String := []
  raw : List (String × Json) := []
deriving Repr, DecidableEq, Inhabited

/-- Wrap an optional string the way `as_record` serialises it. -/
def optPV : Option String → PVal
  | Option.none => PVal.none
  | Option.some s => PVal.str s

/-- `Recipe.as_record` from src/scraper/models.py. -/
def Recipe.as_record (r : Recipe) : Payload :=
  [("source_name", PVal.str r.source_name),
   ("source_url", PVal.str r.source_url),
   ("title", optPV r.title),
   ("description", optPV r.description),
   ("ingredients", PVal.list r.ingredients),
   ("instructions", PVal.list r.instructions),
   ("prep_time", optPV r.prep_time),
   ("cook_time", optPV r.cook_time),
   ("total_time", optPV r.total_time),
   ("servings", optPV r.servings),
   ("image", optPV r.image),
   ("author", optPV r.author),
   ("categories", PVal.list r.categories),
   ("tags", PVal.list r.tags),
   ("raw", PVal.dict r.raw)]

/-- `str(payload.get(key, ""))` for the two mandatory string fields:
a missing key defaults to `""`; a present string is itself; a present
`None` renders as Python `str(None)`.  (Lists and dicts never occur at
these keys in a record produced by `as_record`.) -/
def pvalStrDefault : Option PVal → String
  | Option.some (PVal.str s) => s
  | Option.some PVal.none => "None"
  | _ => ""

/-- `payload.get(key)` read back as `Optional[str]`. -/
def pvalAsOptStr : Option PVal → Option String
  | Option.some (PVal.str s) => Option.some s
  | _ => Option.none

/-- `list(payload.get(key, []) or [])`: a missing key, a `None`, or an
empty list all yield `[]`; a present list is copied. -/
def pvalAsStrList : Option PVal → List String
  | Option.some (PVal.list xs) => xs
  | _ => []

/-- `dict(payload.get("raw", {}) or {})`. -/
def pvalAsDict : Option PVal → List (String × Json)
  | Option.some (PVal.dict kvs) => kvs
  | _ => []

/-- `Recipe.from_record` from src/scraper/models.py. -/
def Recipe.from_record (payload : Payload) : Recipe :=
  { source_name := pvalStrDefault (payload.lookup "source_name")
  , source_url := pvalStrDefault (payload.lookup "source_url")
  , title := pvalAsOptStr (payload.lookup "title")
  , description := pvalAsOptStr (payload.lookup "description")
  , ingredients := pvalAsStrList (payload.lookup "ingredients")
  , instructions := pvalAsStrList (payload.lookup "instructions")
  , prep_time := pvalAsOptStr (payload.lookup "prep_time")
  , cook_time := pvalAsOptStr (payload.lookup "cook_time")
  , total_time := pvalAsOptStr (payload.lookup "total_time")
  , servings := pvalAsOptStr (payload.lookup "servings")
  , image := pvalAsOptStr (payload.lookup "image")
  , author := pvalAsOptStr (payload.lookup "author")
  , categories := pvalAsStrList (payload.lookup "categories")
  , tags := pvalAsStrList (payload.lookup "tags")
  , raw := pvalAsDict (payload.lookup "raw") }

theorem pvalAsOptStr_optPV (t : Option String) :
    pvalAsOptStr (Option.some (optPV t)) = t := by
  cases t <;> rfl

/-- The `ScrapeFailure` dataclass of src/scraper/models.py.  The
`context` dict's values are themselves record payloads: the only context
the orchestrator ever writes is a captured recipe record. -/
structure ScrapeFailure where
  template_name : String
  stage : String
  source_url : Option String := Option.none
  error_message : String := ""
  context : List (String × Payload) := []
deriving Repr, DecidableEq, Inhabited

/-- `ScrapeFailure.normalised_source_url`. -/
def ScrapeFailure.normalised_source_url (f : ScrapeFailure) : String :=
  f.source_url.getD ""

/-- One row of the `scrape_failures` table created by
`MySqlRecipeRepository.ensure_schema`: the UNIQUE KEY
`(template_name, stage, source_url)` is the upsert key. -/
structure FailureRow where
  template_name : String
  stage : String
  source_url : String
  error_message : String
  context : List (String × Payload)
  attempt_count : Nat
  resolved : Bool
deriving Repr, DecidableEq, Inhabited

/-- The unique key of a `scrape_failures` row. -/
def rowKey (r : FailureRow) : String × String × String :=
  (r.template_name, r.stage, r.source_url)

/-- The key a `ScrapeFailure` upserts under (`record_failure` binds
`normalised_source_url`). -/
def failureKey (f : ScrapeFailure) : String × String × String :=
  (f.template_name, f.stage, f.normalised_source_url)

/-- The `ON DUPLICATE KEY UPDATE` clause of `record_failure`: the row
keeps its key, takes the new error message and context, increments
`attempt_count` and clears `resolved`. -/
def bumpRow (f : ScrapeFailure) (r : FailureRow) : FailureRow :=
  { r with
    error_message := f.error_message
    context := f.context
    attempt_count := r.attempt_count + 1
    resolved := false }

/-- The `INSERT` clause of `record_failure`: a fresh row with
`attempt_count = 1, resolved = 0`. -/
def freshRow (f : ScrapeFailure) : FailureRow :=
  { template_name := f.template_name
  , stage := f.stage
  , source_url := f.normalised_source_url
  , error_message := f.error_message
  , context := f.context
  , attempt_count := 1
  , resolved := false }

/-- Mark a row resolved (the `resolve_failure` UPDATE). -/
def markResolved (r : FailureRow) : FailureRow :=
  { r with resolved := true }

/-- `MySqlRecipeRepository.record_failure`: `INSERT ... ON DUPLICATE KEY
UPDATE` against the unique key. -/
def recordFailure (rows : List FailureRow) (f : ScrapeFailure) : List FailureRow :=
  if rows.any (fun r => rowKey r = failureKey f) then
    rows.map (fun r => if rowKey r = failureKey f then bumpRow f r else r)
  else
    rows ++ [freshRow f]

/-- `MySqlRecipeRepository.resolve_failure`: mark every row of the given
key resolved (`source_url or ""`). -/
def resolveFailure (rows : List FailureRow) (t s : String) (u : Option String) :
    List FailureRow :=
  rows.map (fun r =>
    if rowKey r = (t, s, u.getD "") then markResolved r else r)

/-- The operations a run performs against the failure ledger. -/
inductive LedgerOp where
  | record (f : ScrapeFailure)
  | resolve (t s : String) (u : Option String)

/-- Apply one ledger operation to the table. -/
def applyOp (rows : List FailureRow) : LedgerOp → List FailureRow
  | LedgerOp.record f => recordFailure rows f
  | LedgerOp.resolve t s u => resolveFailure rows t s u

/-- The table after a sequence of operations against an empty schema. -/
def applyOps (ops : List LedgerOp) : List FailureRow :=
  ops.foldl applyOp []

/-- Key uniqueness of the `scrape_failures` table. -/
def KeysNodup (rows : List FailureRow) : Prop :=
  (rows.map rowKey).Nodup

theorem rowKey_bumpRow (f : ScrapeFailure) (r : FailureRow) :
    rowKey (bumpRow f r) = rowKey r := rfl

theorem rowKey_markResolved (r : FailureRow) :
    rowKey (markResolved r) = rowKey r := rfl

theorem rowKey_freshRow (f : ScrapeFailure) :
    rowKey (freshRow f) = failureKey f := rfl

theorem map_key_preserved {g : FailureRow → FailureRow}
    (hg : ∀ r, rowKey (g r) = rowKey r) (rows : List FailureRow) :
    List.map rowKey (List.map g rows) = List.map rowKey rows := by
  induction rows with
  | nil => rfl
  | cons r rows ih => simp [hg, ih]

theorem keysNodup_applyOp {rows : List FailureRow} (h : KeysNodup rows)
    (op : LedgerOp) : KeysNodup (applyOp rows op) := by
  cases op with
  | record f =>
    simp only [KeysNodup, applyOp, recordFailure]
    by_cases hc : rows.any (fun r => rowKey r = failureKey f) = true
    · rw [if_pos hc]
      rw [map_key_preserved (fun r => by
        by_cases hr : rowKey r = failureKey f <;> simp [hr, rowKey_bumpRow])]
      exact h
    · rw [if_neg hc]
      rw [List.map_append]
      refine List.Nodup.append h (List.nodup_singleton _) ?_
      intro k hk hk1
      simp only [List.map_cons, List.map_nil, List.mem_singleton,
        rowKey_freshRow] at hk1
      obtain ⟨r, hr, hrk⟩ := List.mem_map.mp hk
      have hkey : rowKey r = failureKey f := by rw [hrk, hk1]
      exact hc (List.any_eq_true.mpr ⟨r, hr, by simp [hkey]⟩)
  | resolve t s u =>
    simp only [KeysNodup, applyOp, resolveFailure]
    rw [map_key_preserved (fun r => by
      by_cases hr : rowKey r = (t, s, u.getD "") <;> simp [hr, rowKey_markResolved])]
    exact h

theorem keysNodup_applyOps (ops : List LedgerOp) : KeysNodup (applyOps ops) := by
  suffices h : ∀ rows, KeysNodup rows → KeysNodup (ops.foldl applyOp rows) by
    exact h [] (by simp [KeysNodup])
  induction ops with
  | nil => intro rows h; simpa using h
  | cons op ops ih =>
    intro rows h
    exact ih (applyOp rows op) (keysNodup_applyOp h op)

/-- C6: starting from an empty `scrape_failures` table, any sequence of
`record_failure` and `resolve_failure` operations keeps at most one row
(hence at most one unresolved failure) per `(templateName, stage,
sourceUrl)` tuple, and recording a failure whose tuple already has a row
keeps the row count, increments that row's `attemptCount` and clears its
`resolved` flag instead of inserting a duplicate. -/
theorem C6_ledger_upsert_invariant (ops : List LedgerOp) (f : ScrapeFailure)
    (hhit : (applyOps ops).any (fun r => rowKey r = failureKey f) = true) :
    KeysNodup (applyOps ops) ∧
    (recordFailure (applyOps ops) f).length = (applyOps ops).length ∧
    ∀ r ∈ recordFailure (applyOps ops) f, rowKey r = failureKey f →
      r.resolved = false ∧
      ∃ r0 ∈ applyOps ops, rowKey r0 = failureKey f ∧
        r.attempt_count = r0.attempt_count + 1 := by
  refine ⟨keysNodup_applyOps ops, ?_, ?_⟩
  · unfold recordFailure
    rw [if_pos hhit, List.length_map]
  · intro r hr hkey
    unfold recordFailure at hr
    rw [if_pos hhit] at hr
    obtain ⟨r0, hr0, hupd⟩ := List.mem_map.mp hr
    by_cases h0 : rowKey r0 = failureKey f
    · rw [if_pos h0] at hupd
      refine ⟨by rw [← hupd]; rfl, r0, hr0, h0, by rw [← hupd]; rfl⟩
    · rw [if_neg h0] at hupd
      rw [← hupd] at hkey
      exact absurd hkey h0

/-- Witness for C6 at a concrete operation sequence: one prior failure
for the tuple, then a second record for the same tuple. -/
theorem C6_ledger_upsert_invariant_witness :
    KeysNodup (applyOps [LedgerOp.record ⟨"tmpl", "article", Option.some "u", "boom", []⟩]) ∧
    (recordFailure (applyOps [LedgerOp.record ⟨"tmpl", "article", Option.some "u", "boom", []⟩])
        ⟨"tmpl", "article", Option.some "u", "boom again", []⟩).length =
      (applyOps [LedgerOp.record ⟨"tmpl", "article", Option.some "u", "boom", []⟩]).length ∧
    ∀ r ∈ recordFailure (applyOps [LedgerOp.record ⟨"tmpl", "article", Option.some "u", "boom", []⟩])
        ⟨"tmpl", "article", Option.some "u", "boom again", []⟩,
      rowKey r = failureKey ⟨"tmpl", "article", Option.some "u", "boom again", []⟩ →
      r.resolved = false ∧
      ∃ r0 ∈ applyOps [LedgerOp.record ⟨"tmpl", "article", Option.some "u", "boom", []⟩],
        rowKey r0 = failureKey ⟨"tmpl", "article", Option.some "u", "boom again", []⟩ ∧
        r.attempt_count = r0.attempt_count + 1 :=
  C6_ledger_upsert_invariant
    [LedgerOp.record ⟨"tmpl", "article", Option.some "u", "boom", []⟩]
    ⟨"tmpl", "article", Option.some "u", "boom again", []⟩
    (by decide)

theorem from_record_as_record (r : Recipe) :
    Recipe.from_record r.as_record = r := by
  cases r with
  | mk sn su t d ing ins pt ct tt sv im au cat tg raw =>
    simp [Recipe.from_record, Recipe.as_record, List.lookup,
      pvalStrDefault, pvalAsStrList, pvalAsDict, pvalAsOptStr_optPV]

/-- C10: serialising a `Recipe` with `as_record` and reconstructing it
with `from_record` is the identity on every field. -/
theorem C10_recipe_record_roundtrip (r : Recipe) :
    Recipe.from_record r.as_record = r :=
  from_record_as_record r

/-!
The orchestration layer, src/scraper/service.py, modelled as a trace of
the calls it makes against its collaborators (repository and article
scraper) plus a possible uncaught Python runtime error.

A central fact of the embedding: `ArticleScraper.scrape`
(src/scraper/extractors.py) returns a `List[Recipe]`, while
`RecipeScraperService` treats the returned value as a single `Recipe`
(`recipe.title`, `recipe.ingredients`, `save(recipe)`); a Python `list`
has no such attributes and no `as_record` method, so those accesses
raise `AttributeError` outside of every `try` block in the service.
The embedding records that as `PyError.attributeError` at exactly the
source lines where the access happens.
-/

/-- The uncaught runtime error the service can hit. -/
inductive PyError where
  | attributeError
deriving Repr, DecidableEq, Inhabited

/-- `PendingFailure` of src/scraper/models.py. -/
structure PendingFailure extends ScrapeFailure where
  id : Nat := 0
  attempt_count : Nat := 0
deriving Repr, DecidableEq, Inhabited

/-- Calls the service makes against its collaborators, in order. -/
inductive ServiceAction where
  | recordAct (f : ScrapeFailure)
  | resolveAct (templateName stage url : String)
  | saveAct (r : Recipe)
  | saveListAct (rs : List Recipe)
  | scrapeAct (url : String)
deriving Repr, DecidableEq

/-- Collaborator outcomes the service runs against: listing discovery
per template name, article extraction per URL (returning the scraper's
`List[Recipe]`), and the persistence outcome for a recipe (`saveErr` is
the raised message when `saveOk` is false). -/
structure ServiceEnv where
  discover : String → Except String (List String)
  scrapeArticle : String → Except String (List Recipe)
  saveOk : Recipe → Bool
  saveErr : Recipe → String

/-- The shared tail of `_retry_persist_failure`: `save(recipe)`, then
resolve on success or record a fresh `persist` failure carrying the
recipe payload on error. -/
def savePersistStep (env : ServiceEnv) (templateName : String) (recipe : Recipe) :
    List ServiceAction × Option PyError :=
  if env.saveOk recipe then
    ([ServiceAction.saveAct recipe,
      ServiceAction.resolveAct templateName "persist" recipe.source_url],
     Option.none)
  else
    ([ServiceAction.saveAct recipe,
      ServiceAction.recordAct
        ⟨templateName, "persist", Option.some recipe.source_url,
          env.saveErr recipe, [("recipe", recipe.as_record)]⟩],
     Option.none)

/-- The `elif failure.source_url:` branch of `_retry_persist_failure`:
re-extract the article.  On scrape success the bound `recipe` is the
scraper's `List[Recipe]`; `save(recipe)` then evaluates
`recipe.as_record()` on that list, raising `AttributeError`, and the
`except` handler re-raises the same error while building
`recipe.as_record()` for the failure context — so the error escapes the
function uncaught. -/
def retryPersistRescrape (env : ServiceEnv) (templateName : String)
    (failure : PendingFailure) : List ServiceAction × Option PyError :=
  match failure.source_url with
  | Option.some url =>
    if url = "" then ([], Option.none)
    else
      match env.scrapeArticle url with
      | Except.error e =>
        ([ServiceAction.scrapeAct url,
          ServiceAction.recordAct
            ⟨templateName, "article", Option.some url, e, []⟩],
         Option.none)
      | Except.ok rs =>
        ([ServiceAction.scrapeAct url, ServiceAction.saveListAct rs],
         Option.some PyError.attributeError)
  | Option.none => ([], Option.none)

/-- `RecipeScraperService._retry_persist_failure`: reuse the captured
recipe payload from the failure context when it is present (a non-empty
dict), otherwise re-extract when a source URL exists, otherwise skip. -/
def retryPersistFailure (env : ServiceEnv) (templateName : String)
    (failure : PendingFailure) : List ServiceAction × Option PyError :=
  match failure.context.lookup "recipe" with
  | Option.some payload =>
    if payload = [] then retryPersistRescrape env templateName failure
    else savePersistStep env templateName (Recipe.from_record payload)
  | Option.none => retryPersistRescrape env templateName failure

/-- `RecipeScraperService._retry_article_failure`: re-extract; on scrape
error record a fresh `article` failure; on scrape success the
`recipe.title` access at the line that follows hits the returned
`List[Recipe]` and raises `AttributeError` uncaught. -/
def retryArticleFailure (env : ServiceEnv) (templateName : String)
    (failure : PendingFailure) : List ServiceAction × Option PyError :=
  match failure.source_url with
  | Option.some url =>
    if url = "" then ([], Option.none)
    else
      match env.scrapeArticle url with
      | Except.error e =>
        ([ServiceAction.scrapeAct url,
          ServiceAction.recordAct
            ⟨templateName, "article", Option.some url, e, []⟩],
         Option.none)
      | Except.ok _rs =>
        ([ServiceAction.scrapeAct url], Option.some PyError.attributeError)
  | Option.none => ([], Option.none)

/-- `RecipeScraperService._replay_failures`: dispatch each pending
failure by stage (templates looked up by name; unknown names and
`listing`-stage failures are skipped).  An error raised by a retry is
not caught and aborts the replay. -/
def replayFailures (env : ServiceEnv) (templates : List (String × String)) :
    List PendingFailure → List ServiceAction × Option PyError
  | [] => ([], Option.none)
  | f :: rest =>
    match templates.lookup f.template_name with
    | Option.none => replayFailures env templates rest
    | Option.some _ =>
      let step :=
        if f.stage = "article" then retryArticleFailure env f.template_name f
        else if f.stage = "persist" then retryPersistFailure env f.template_name f
        else ([], Option.none)
      match step.2 with
      | Option.some e => (step.1, Option.some e)
      | Option.none =>
        let tail := replayFailures env templates rest
        (step.1 ++ tail.1, tail.2)

/-- The per-URL loop of `RecipeScraperService._scrape_template`.  A
failed extraction is caught, recorded and skipped; a successful
extraction reaches `if not recipe.title and not recipe.ingredients:`
(service.py line 100) where `recipe` is the `List[Recipe]` returned by
`ArticleScraper.scrape` — the attribute access raises `AttributeError`
outside the `try` block, so the statements that follow in the source
(skip, resolve, save, record persist failure) are unreachable and the
error escapes the method. -/
def scrapeArticlesLoop (env : ServiceEnv) (templateName : String) :
    List String → List ServiceAction × Option PyError
  | [] => ([], Option.none)
  | url :: rest =>
    match env.scrapeArticle url with
    | Except.error e =>
      let tail := scrapeArticlesLoop env templateName rest
      ([ServiceAction.scrapeAct url,
        ServiceAction.recordAct
          ⟨templateName, "article", Option.some url, e, []⟩] ++ tail.1,
       tail.2)
    | Except.ok _rs =>
      ([ServiceAction.scrapeAct url], Option.some PyError.attributeError)

/-- `RecipeScraperService._scrape_template`: discovery failure is
recorded and the template skipped; on success the prior listing failure
is resolved and each discovered URL is processed in turn. -/
def scrapeTemplateRun (env : ServiceEnv) (templateName templateUrl : String) :
    List ServiceAction × Option PyError :=
  match env.discover templateName with
  | Except.error e =>
    ([ServiceAction.recordAct
        ⟨templateName, "listing", Option.some templateUrl, e, []⟩],
     Option.none)
  | Except.ok articleUrls =>
    let loop := scrapeArticlesLoop env templateName articleUrls
    (ServiceAction.resolveAct templateName "listing" templateUrl :: loop.1,
     loop.2)

/-- `RecipeScraperService.run`: replay pending failures, then scrape
every template; an uncaught runtime error aborts the run. -/
def runService (env : ServiceEnv) (templates : List (String × String))
    (pending : List PendingFailure) : List ServiceAction × Option PyError :=
  let rp := replayFailures env templates pending
  match rp.2 with
  | Option.some e => (rp.1, Option.some e)
  | Option.none =>
    templates.foldl
      (fun st t =>
        match st.2 with
        | Option.some _ => st
        | Option.none =>
          let r := scrapeTemplateRun env t.1 t.2
          (st.1 ++ r.1, r.2))
      (rp.1, Option.none)

/-- C7: a pending `persist`-stage failure whose context carries the
captured record of a recipe `r` is replayed by calling `save` with the
recipe reconstructed from that payload — equal to `r` itself — with no
article fetch or re-extraction. -/
theorem C7_persist_replay_uses_captured_payload
    (env : ServiceEnv) (templateName : String) (failure : PendingFailure)
    (r : Recipe)
    (hpayload : failure.context.lookup "recipe" = Option.some r.as_record) :
    ServiceAction.saveAct r ∈ (retryPersistFailure env templateName failure).1 ∧
    (∀ u, ServiceAction.scrapeAct u ∉ (retryPersistFailure env templateName failure).1) ∧
    (retryPersistFailure env templateName failure).2 = Option.none := by
  unfold retryPersistFailure
  rw [hpayload]
  have hne : r.as_record = ([] : Payload) → False := by
    intro h
    simp [Recipe.as_record] at h
  simp only [if_neg hne, from_record_as_record]
  unfold savePersistStep
  by_cases hs : env.saveOk r = true
  · rw [if_pos hs]
    refine ⟨List.mem_cons_self _ _, ?_, rfl⟩
    intro u hu
    simp only [List.mem_cons, List.mem_singleton] at hu
    rcases hu with h | h | h <;> cases h
  · rw [if_neg hs]
    refine ⟨List.mem_cons_self _ _, ?_, rfl⟩
    intro u hu
    simp only [List.mem_cons, List.mem_singleton] at hu
    rcases hu with h | h | h <;> cases h

/-- Witness for C7 at a concrete captured failure. -/
theorem C7_persist_replay_uses_captured_payload_witness :
    ServiceAction.saveAct
        { source_name := "t", source_url := "https://example.com/a",
          instructions := ["step"] } ∈
      (retryPersistFailure
        ⟨fun _ => Except.ok [], fun _ => Except.ok [], fun _ => true, fun _ => ""⟩
        "t"
        { template_name := "t", stage := "persist",
          source_url := Option.some "https://example.com/a",
          error_message := "db down",
          context := [("recipe",
            Recipe.as_record
              { source_name := "t", source_url := "https://example.com/a",
                instructions := ["step"] })] }).1 ∧
    (∀ u, ServiceAction.scrapeAct u ∉
      (retryPersistFailure
        ⟨fun _ => Except.ok [], fun _ => Except.ok [], fun _ => true, fun _ => ""⟩
        "t"
        { template_name := "t", stage := "persist",
          source_url := Option.some "https://example.com/a",
          error_message := "db down",
          context := [("recipe",
            Recipe.as_record
              { source_name := "t", source_url := "https://example.com/a",
                instructions := ["step"] })] }).1) ∧
    (retryPersistFailure
        ⟨fun _ => Except.ok [], fun _ => Except.ok [], fun _ => true, fun _ => ""⟩
        "t"
        { template_name := "t", stage := "persist",
          source_url := Option.some "https://example.com/a",
          error_message := "db down",
          context := [("recipe",
            Recipe.as_record
              { source_name := "t", source_url := "https://example.com/a",
                instructions := ["step"] })] }).2 = Option.none :=
  C7_persist_replay_uses_captured_payload _ "t" _ _ rfl

/-- C2 failing input: one template, one discovered URL, a successful
extraction of a perfectly ordinary thin page (no title, no ingredients,
one instruction).  The claim says the orchestrator skips it silently
and the run completes; the code aborts the run with an uncaught
`AttributeError` because the scrape result is a `List[Recipe]`. -/
theorem C2_run_aborted_by_successful_extraction :
    (runService
      ⟨fun _ => Except.ok ["https://example.com/a"],
       fun _ => Except.ok
         [{ source_name := "t", source_url := "https://example.com/a",
            instructions := ["step"] }],
       fun _ => true, fun _ => ""⟩
      [("t", "https://example.com")] []).2 =
    Option.some PyError.attributeError := rfl

/-!
URL helpers.  `urlparse`/`urljoin` are Python standard library calls;
the embedding implements the slice of their behaviour the scraper
exercises: absolute `scheme://host/path?query#fragment` URLs,
root-relative references, fragment-only references, and plain relative
paths without dot segments.
-/

/-- Does the second character list start with the first? -/
def leadsWith : List Char → List Char → Bool
  | [], _ => true
  | _ :: _, [] => false
  | p :: ps, c :: cs => p == c && leadsWith ps cs

/-- Split a character list on every occurrence of a non-empty
separator, scanning left to right (the semantics of Python `str.split`
with a separator argument).  Structural recursion on a fuel bounded by
the input length, so the definition evaluates inside the kernel. -/
def splitOnCharsGo (s0 : Char) (srest : List Char) :
    Nat → List Char → List Char → List (List Char)
  | _, [], acc => [acc.reverse]
  | 0, cs, acc => [acc.reverse ++ cs]
  | fuel + 1, c :: cs, acc =>
    if leadsWith (s0 :: srest) (c :: cs) then
      acc.reverse ::
        splitOnCharsGo s0 srest fuel ((c :: cs).drop (srest.length + 1)) []
    else
      splitOnCharsGo s0 srest fuel cs (c :: acc)

/-- Split on a separator; an empty separator returns the input whole. -/
def splitOnChars (sep cs : List Char) : List (List Char) :=
  match sep with
  | [] => [cs]
  | s0 :: srest => splitOnCharsGo s0 srest cs.length cs []

/-- String split on every occurrence of a separator. -/
def strSplitOn (s sep : String) : List String :=
  (splitOnChars sep.data s.data).map (fun cs => String.mk cs)

/-- Join a list of strings with a separator. -/
def strJoinWith (sep : String) : List String → String
  | [] => ""
  | [x] => x
  | x :: rest => x ++ sep ++ strJoinWith sep rest

/-- Split a string at the first occurrence of a separator, like Python
`s.split(sep, 1)`; the second component is `none` when the separator
does not occur. -/
def splitFirst (s sep : String) : String × Option String :=
  match strSplitOn s sep with
  | [] => (s, Option.none)
  | [x] => (x, Option.none)
  | x :: rest => (x, Option.some (strJoinWith sep rest))

/-- Is the first list a contiguous sublist of the second? -/
def hasSubChars (pat : List Char) : List Char → Bool
  | [] => leadsWith pat []
  | c :: cs => leadsWith pat (c :: cs) || hasSubChars pat cs

/-- Substring test, like Python `pat in s`. -/
def containsSub (s pat : String) : Bool :=
  hasSubChars pat.data s.data

/-- ASCII lower-casing of one character (the characters the scraper
compares are ASCII). -/
def asciiLower (c : Char) : Char :=
  if 'A' ≤ c && c ≤ 'Z' then Char.ofNat (c.toNat + 32) else c

/-- ASCII `str.lower`. -/
def lowerStr (s : String) : String :=
  String.mk (s.data.map asciiLower)

/-- Does the string start with the given plain text? -/
def strStartsWith (s pat : String) : Bool :=
  leadsWith pat.data s.data

/-- Does the string end with the given plain text? -/
def strEndsWith (s pat : String) : Bool :=
  leadsWith pat.data.reverse s.data.reverse

/-- The ASCII whitespace Python `str.strip` removes here. -/
def isSpaceChar (c : Char) : Bool :=
  c == ' ' || c == '\t' || c == '\n' || c == '\r'

/-- Python `str.strip()`. -/
def stripStr (s : String) : String :=
  String.mk (((s.data.dropWhile isSpaceChar).reverse.dropWhile isSpaceChar).reverse)

/-- The result of `urllib.parse.urlparse`. -/
structure UrlParts where
  scheme : String
  netloc : String
  path : String
  query : String
  fragment : String
deriving Repr, DecidableEq, Inhabited

/-- `urllib.parse.urlparse`, for the URL shapes the scraper handles:
fragment split first at the first `#`, then query at the first `?`;
a `scheme://` prefix yields netloc up to the next `/` and the path
after it; anything else is a bare path. -/
def urlparse (u : String) : UrlParts :=
  let fsplit := splitFirst u "#"
  let fragment := fsplit.2.getD ""
  let qsplit := splitFirst fsplit.1 "?"
  let query := qsplit.2.getD ""
  let rest := qsplit.1
  match splitFirst rest "://" with
  | (scheme, Option.some after) =>
    match splitFirst after "/" with
    | (host, Option.some tail) =>
      { scheme := scheme, netloc := host, path := "/" ++ tail,
        query := query, fragment := fragment }
    | (host, Option.none) =>
      { scheme := scheme, netloc := host, path := "",
        query := query, fragment := fragment }
  | (_, Option.none) =>
    { scheme := "", netloc := "", path := rest,
      query := query, fragment := fragment }

/-- The directory part of a path: everything up to and including the
last `/` (used by relative reference resolution). -/
def pathDirname (p : String) : String :=
  match (strSplitOn p "/").reverse with
  | [] => ""
  | [_] => ""
  | _ :: revDirs => strJoinWith "/" revDirs.reverse ++ "/"

/-- `urllib.parse.urljoin` for the reference shapes the scraper meets:
empty reference, absolute URL, protocol-relative, fragment-only,
root-relative, and plain relative path. -/
def urljoin (base rel : String) : String :=
  if rel = "" then base
  else if containsSub rel "://" then rel
  else
    let b := urlparse base
    if strStartsWith rel "//" then b.scheme ++ ":" ++ rel
    else if strStartsWith rel "#" then (splitFirst base "#").1 ++ rel
    else if strStartsWith rel "/" then b.scheme ++ "://" ++ b.netloc ++ rel
    else b.scheme ++ "://" ++ b.netloc ++ pathDirname b.path ++ rel

/-- Python `s.lstrip("www.")`: strip leading characters drawn from the
set `w`, `.` (note: a character set, not a prefix). -/
def lstripWwwDot (s : String) : String :=
  String.mk (s.data.dropWhile (fun c => c == 'w' || c == '.'))

/-- `_same_domain` from src/scraper/extractors.py. -/
def sameDomain (baseUrl candidate : String) : Bool :=
  let base := urlparse baseUrl
  let target := urlparse candidate
  let baseHost := lstripWwwDot (lowerStr base.netloc)
  let targetHost := lstripWwwDot (lowerStr target.netloc)
  if targetHost ≠ "" && targetHost ≠ baseHost then false
  else targetHost ≠ "" || (target.netloc = "" && target.path ≠ "")

/-- `NAVIGATION_FRAGMENT_KEYWORDS` from src/scraper/extractors.py. -/
def navigationFragmentKeywords : List String :=
  ["breadcrumb", "comment", "comments", "respond", "reply", "share",
   "print", "menu", "nav", "footer", "header"]

/-- `_is_navigation_fragment`. -/
def isNavigationFragment (fragment : String) : Bool :=
  navigationFragmentKeywords.any (fun kw => containsSub (lowerStr fragment) kw)

/-- `ASSET_EXTENSIONS` from src/scraper/extractors.py. -/
def assetExtensions : List String :=
  [".jpg", ".jpeg", ".png", ".gif", ".bmp", ".svg", ".webp", ".tif",
   ".tiff", ".ico", ".pdf", ".zip", ".rar", ".7z", ".tar", ".gz",
   ".mp4", ".mp3", ".mov", ".avi", ".m4v", ".webm", ".ogg", ".ogv",
   ".wav"]

/-- The keys of `urllib.parse.parse_qs(query)` (default options: pairs
split on `&`, a key is present only with a non-empty value). -/
def queryKeys (query : String) : List String :=
  (strSplitOn query "&").filterMap (fun kv =>
    match splitFirst kv "=" with
    | (k, Option.some v) => if v = "" then Option.none else Option.some k
    | (_, Option.none) => Option.none)

/-- `_looks_like_asset_url`. -/
def looksLikeAssetUrl (url : String) : Bool :=
  let parsed := urlparse url
  let path := lowerStr parsed.path
  if assetExtensions.any (fun ext => strEndsWith path ext) then true
  else if strEndsWith path "/feed/" || strEndsWith path "/feed" then true
  else if parsed.query ≠ "" then
    (queryKeys parsed.query).any (fun k => k = "attachment_id" || k = "download")
  else false

/-- `_normalise_base_url`: drop the fragment and all trailing slashes. -/
def normaliseBaseUrl (url : String) : String :=
  String.mk ((((strSplitOn url "#").headD url).data.reverse.dropWhile (fun c => c == '/')).reverse)

/-- Insert into a Python set modelled as a duplicate-free list. -/
def setInsert (l : List String) (x : String) : List String :=
  if x ∈ l then l else l ++ [x]

/-- `ListingScraper._should_include_url`, tail after the fragment
checks. -/
def shouldIncludeUrlTail (templateUrl listingUrl candidateUrl : String)
    (hasFragment : Bool) : Bool :=
  let candidateBase := normaliseBaseUrl candidateUrl
  if candidateBase = "" then false
  else
    let listingBase := normaliseBaseUrl listingUrl
    let templateBase := normaliseBaseUrl templateUrl
    if !hasFragment && (candidateBase = listingBase || candidateBase = templateBase) then
      false
    else if looksLikeAssetUrl candidateUrl then false
    else true

/-- `ListingScraper._should_include_url`. -/
def shouldIncludeUrl (templateUrl listingUrl candidateUrl : String) : Bool :=
  let parsed := urlparse candidateUrl
  if parsed.fragment ≠ "" then
    if isNavigationFragment parsed.fragment then false
    else
      let loweredFragment := lowerStr parsed.fragment
      if strStartsWith loweredFragment "/" then false
      else if containsSub loweredFragment "schema" ||
          containsSub loweredFragment "image" ||
          containsSub loweredFragment "logo" then false
      else shouldIncludeUrlTail templateUrl listingUrl candidateUrl true
  else shouldIncludeUrlTail templateUrl listingUrl candidateUrl false

/-- `STORAGE_SITEMAP_EXCLUDE_KEYWORDS`. -/
def storageSitemapExcludeKeywords : List String :=
  ["pages", "chefs", "collections", "playlists", "shows", "spotlights",
   "videos"]

/-- `ListingScraper._should_queue_sitemap`. -/
def shouldQueueSitemap (templateUrl sitemapUrl : String) : Bool :=
  if !sameDomain templateUrl sitemapUrl then false
  else
    let path := lowerStr (urlparse sitemapUrl).path
    if containsSub path "/storage/" && !containsSub path "recipe" then
      if storageSitemapExcludeKeywords.any (fun kw => containsSub path kw) then
        false
      else true
    else true

example : urlparse "https://example.com/recipes/page/2/?q=1#frag" =
    { scheme := "https", netloc := "example.com", path := "/recipes/page/2/",
      query := "q=1", fragment := "frag" } := by decide
example : urljoin "https://example.com/recipes/" "/recipes/second" =
    "https://example.com/recipes/second" := by decide
example : urljoin "https://example.com/recipes/" "best-soup/" =
    "https://example.com/recipes/best-soup/" := by decide
example : urljoin "https://example.com/recipes/" "#recipe-section" =
    "https://example.com/recipes/#recipe-section" := by decide
example : sameDomain "https://example.com/recipes/" "https://www.example.com/a" = true := by
  decide
example : sameDomain "https://example.com/recipes/" "https://other.com/x" = false := by
  decide
example : looksLikeAssetUrl "https://example.com/wp-content/uploads/image.jpg" = true := by
  decide
example : shouldIncludeUrl "https://example.com/recipes/"
    "https://example.com/recipes/" "https://example.com/recipes/" = false := by decide
example : shouldIncludeUrl "https://example.com/recipes/"
    "https://example.com/recipes/" "https://example.com/recipes/best-soup/" = true := by
  decide
example : shouldIncludeUrl "https://example.com/recipes/"
    "https://example.com/recipes/" "https://example.com/recipes/#breadcrumb" = false := by
  decide
example : shouldIncludeUrl "https://example.com/recipes/"
    "https://example.com/recipes/" "https://example.com/recipes/#recipe-section" = true := by
  decide
example : shouldQueueSitemap "https://example.com/c"
    "https://example.com/storage/recipes-1.xml" = true := by decide
example : shouldQueueSitemap "https://example.com/c"
    "https://example.com/storage/pages-1.xml" = false := by decide

/-!
`ListingScraper` (src/scraper/extractors.py).  A fetched listing page is
modelled by the data the code reads off it: the response's final URL,
the `href` attributes of the elements matched by the listing's link
selector, the raw URL strings `_collect_json_ld_urls` gathers from its
JSON-LD blocks, and the `href` attributes matched by the pagination
selector.  A site maps URLs to page fetch outcomes and sitemap fetch
outcomes (`none` models a fetch, decode or XML parse failure, each of
which the sitemap pass logs and skips).  Loops that Python bounds
dynamically take an explicit fuel argument so every definition is
structural and evaluates inside the kernel.
-/

/-- What the listing crawler reads off one fetched listing page. -/
structure ListingPage where
  finalUrl : String
  linkHrefs : List String := []
  jsonldRawUrls : List String := []
  paginationHrefs : List String := []

/-- A site: page fetch outcomes and sitemap fetch outcomes. -/
structure Site where
  fetchPage : String → Except String ListingPage
  fetchSitemap : String → Option (List String)

/-- `ListingConfig` of src/scraper/models.py (the link selector itself
is folded into the page model). -/
structure ListingConfig where
  url : String
  pagination_selector : Option String := Option.none

/-- The slice of `RecipeTemplate` the listing scraper reads. -/
structure RecipeTemplate where
  name : String
  url : String
  listings : List ListingConfig := []

/-- The link-selector half of `_scrape_listing`'s per-page collection:
skip falsy hrefs, resolve against the final URL, keep candidates that
pass `_should_include_url`. -/
def collectSelectorUrls (templateUrl listingUrl baseUrl : String)
    (hrefs : List String) : List String :=
  hrefs.foldl (fun acc href =>
    if href = "" then acc
    else
      let absolute := urljoin baseUrl href
      if shouldIncludeUrl templateUrl listingUrl absolute then setInsert acc absolute
      else acc) []

/-- The per-candidate loop of `_extract_listing_links_from_jsonld`. -/
def jsonldLinksGo (baseUrl : String) : List String → List String → List String
  | [], acc => acc
  | u :: rest, acc =>
    if u = "" then jsonldLinksGo baseUrl rest acc
    else
      let absolute := urljoin baseUrl u
      if absolute = "" then jsonldLinksGo baseUrl rest acc
      else if looksLikeAssetUrl absolute then jsonldLinksGo baseUrl rest acc
      else if !sameDomain baseUrl absolute then jsonldLinksGo baseUrl rest acc
      else jsonldLinksGo baseUrl rest (setInsert acc absolute)

/-- `_extract_listing_links_from_jsonld`, applied to the raw URL strings
collected from the page's JSON-LD blobs. -/
def jsonldListingLinks (baseUrl : String) (raws : List String) : List String :=
  jsonldLinksGo baseUrl raws []

/-- One page's collected article URLs: the link selector's candidates,
falling back to the JSON-LD candidates when the selector matched
nothing. -/
def collectPageUrls (templateUrl listingUrl baseUrl : String)
    (hrefs raws : List String) : List String :=
  let selUrls := collectSelectorUrls templateUrl listingUrl baseUrl hrefs
  if selUrls = [] then
    (jsonldListingLinks baseUrl raws).foldl (fun acc l =>
      if shouldIncludeUrl templateUrl listingUrl l then setInsert acc l else acc)
      selUrls
  else selUrls

/-- The pagination half of `_scrape_listing`'s per-page work: resolve
pagination hrefs, keep on-domain pages not yet seen or queued; returns
the pages to enqueue (unnormalised) and the updated queued set. -/
def collectPagination (listingUrl baseUrl : String) (hrefs : List String)
    (pagesSeen queuedPages : List String) : List String × List String :=
  hrefs.foldl (fun st href =>
    if href = "" then st
    else
      let candidate := urljoin baseUrl href
      if candidate = "" then st
      else if !sameDomain listingUrl candidate then st
      else
        let candidateBase := normaliseBaseUrl candidate
        if candidateBase = "" then st
        else if candidateBase ∈ pagesSeen || candidateBase ∈ st.2 then st
        else (st.1 ++ [candidate], st.2 ++ [candidateBase])) ([], queuedPages)

/-- The loop state of `ListingScraper._scrape_listing`: queue of pages
to visit, queued-page set, seen-page set, accumulated article URLs,
fetch log, and pages processed. -/
structure CrawlState where
  queue : List String
  queued : List String
  seen : List String
  articles : List String
  flog : List String
  processed : Nat

/-- The outcome of one iteration of `_scrape_listing`'s `while` loop:
leave the loop, raise the fetch error, or continue with a new state. -/
inductive CrawlStep where
  | stop
  | fail (e : String)
  | next (st : CrawlState)

/-- One iteration of the `while` loop of `ListingScraper._scrape_listing`:
pop a page, skip it if already seen, otherwise fetch it (an error
propagates), collect its article links, mark it seen and enqueue its
unseen pagination targets. -/
def crawlStep (site : Site) (templateUrl : String) (listing : ListingConfig)
    (maxPages : Nat) (st : CrawlState) : CrawlStep :=
  match st.queue with
  | [] => CrawlStep.stop
  | next :: rest =>
    if st.processed < maxPages then
      let queuedPages1 := st.queued.erase (normaliseBaseUrl next)
      let normalisedNext := normaliseBaseUrl next
      if normalisedNext ∈ st.seen then
        CrawlStep.next ⟨rest, queuedPages1, st.seen, st.articles, st.flog, st.processed⟩
      else
        match site.fetchPage next with
        | Except.error e => CrawlStep.fail e
        | Except.ok page =>
          let flog1 := st.flog ++ [next]
          let baseUrl := page.finalUrl
          let baseNorm := normaliseBaseUrl baseUrl
          if baseNorm ∈ st.seen then
            CrawlStep.next ⟨rest, queuedPages1, st.seen, st.articles, flog1,
              st.processed + 1⟩
          else
            let pageUrls := collectPageUrls templateUrl listing.url baseUrl
              page.linkHrefs page.jsonldRawUrls
            let articles1 := pageUrls.foldl setInsert st.articles
            let pagesSeen1 :=
              let s1 := setInsert st.seen baseNorm
              if normalisedNext ≠ "" then setInsert s1 normalisedNext else s1
            match listing.pagination_selector with
            | Option.none =>
              CrawlStep.next ⟨rest, queuedPages1, pagesSeen1, articles1, flog1,
                st.processed + 1⟩
            | Option.some _ =>
              let pg := collectPagination listing.url baseUrl page.paginationHrefs
                pagesSeen1 queuedPages1
              CrawlStep.next ⟨rest ++ pg.1, pg.2, pagesSeen1, articles1, flog1,
                st.processed + 1⟩
    else CrawlStep.stop

/-- The `while` loop of `_scrape_listing`, driven by `crawlStep` (a
fuel argument bounds the dynamically-bounded Python loop).  The
returned pair is the article URL set and the list of fetched page URLs
in order. -/
def scrapeListingGo (site : Site) (templateUrl : String) (listing : ListingConfig)
    (maxPages : Nat) : Nat → CrawlState → Except String (List String × List String)
  | 0, st => Except.ok (st.articles, st.flog)
  | fuel + 1, st =>
    match crawlStep site templateUrl listing maxPages st with
    | CrawlStep.stop => Except.ok (st.articles, st.flog)
    | CrawlStep.fail e => Except.error e
    | CrawlStep.next st1 => scrapeListingGo site templateUrl listing maxPages fuel st1

/-- `ListingScraper._scrape_listing` (fetch log added for the pagination
property). -/
def scrapeListing (site : Site) (templateUrl : String) (listing : ListingConfig)
    (maxPages fuel : Nat) : Except String (List String × List String) :=
  scrapeListingGo site templateUrl listing maxPages fuel
    ⟨[listing.url], [normaliseBaseUrl listing.url], [], [], [], 0⟩

theorem scrapeListingGo_next {site : Site} {templateUrl : String}
    {listing : ListingConfig} {maxPages : Nat} {st st1 : CrawlState} (fuel : Nat)
    (h : crawlStep site templateUrl listing maxPages st = CrawlStep.next st1) :
    scrapeListingGo site templateUrl listing maxPages (fuel + 1) st =
      scrapeListingGo site templateUrl listing maxPages fuel st1 := by
  show (match crawlStep site templateUrl listing maxPages st with
    | CrawlStep.stop => Except.ok (st.articles, st.flog)
    | CrawlStep.fail e => Except.error e
    | CrawlStep.next st2 => scrapeListingGo site templateUrl listing maxPages fuel st2) =
    scrapeListingGo site templateUrl listing maxPages fuel st1
  rw [h]

theorem scrapeListingGo_stop {site : Site} {templateUrl : String}
    {listing : ListingConfig} {maxPages : Nat} {st : CrawlState} (fuel : Nat)
    (h : crawlStep site templateUrl listing maxPages st = CrawlStep.stop) :
    scrapeListingGo site templateUrl listing maxPages (fuel + 1) st =
      Except.ok (st.articles, st.flog) := by
  show (match crawlStep site templateUrl listing maxPages st with
    | CrawlStep.stop => Except.ok (st.articles, st.flog)
    | CrawlStep.fail e => Except.error e
    | CrawlStep.next st2 => scrapeListingGo site templateUrl listing maxPages fuel st2) =
    Except.ok (st.articles, st.flog)
  rw [h]

/-- `SITEMAP_CANDIDATES`. -/
def sitemapCandidates : List String :=
  ["sitemap.xml", "sitemap_index.xml", "sitemap-index.xml", "wp-sitemap.xml"]

/-- `ListingScraper._candidate_sitemaps`. -/
def candidateSitemapUrls (baseUrl : String) : List String :=
  let parsed := urlparse baseUrl
  let base :=
    if parsed.scheme ≠ "" && parsed.netloc ≠ "" then
      parsed.scheme ++ "://" ++ parsed.netloc ++ "/"
    else normaliseBaseUrl baseUrl ++ "/"
  sitemapCandidates.map (fun c => urljoin base c)

/-- The `for loc in root.iter(loc_tag)` body of
`_discover_from_sitemaps`: strip each entry, keep on-domain entries;
`.xml`/`.xml.gz` entries are queued as child sitemaps when
`_should_queue_sitemap` accepts them and they are unvisited; other
entries passing `_should_include_url` are added to the article set, and
the loop breaks once the set reaches the cap.  Returns the grown
article set and the child sitemaps to enqueue. -/
def leafInsert (templateUrl : String) (acc : List String) (locText : String) :
    List String :=
  if shouldIncludeUrl templateUrl templateUrl locText then setInsert acc locText
  else acc

def processLocs (templateUrl : String) (cap : Nat) (visited : List String) :
    List String → List String → List String → List String × List String
  | [], acc, qadd => (acc, qadd)
  | loc :: rest, acc, qadd =>
    if stripStr loc = "" then processLocs templateUrl cap visited rest acc qadd
    else if !sameDomain templateUrl (stripStr loc) then
      processLocs templateUrl cap visited rest acc qadd
    else if strEndsWith (stripStr loc) ".xml" || strEndsWith (stripStr loc) ".xml.gz" then
      if shouldQueueSitemap templateUrl (stripStr loc) && !((stripStr loc) ∈ visited) then
        processLocs templateUrl cap visited rest acc (qadd ++ [stripStr loc])
      else processLocs templateUrl cap visited rest acc qadd
    else
      if (leafInsert templateUrl acc (stripStr loc)).length ≥ cap then
        (leafInsert templateUrl acc (stripStr loc), qadd)
      else
        processLocs templateUrl cap visited rest (leafInsert templateUrl acc (stripStr loc)) qadd

/-- The loop state of `_discover_from_sitemaps`: sitemap queue,
visited set, accumulated article URLs, and the log of attempted
sitemap fetches. -/
structure SmState where
  queue : List String
  visited : List String
  acc : List String
  flog : List String

/-- The outcome of one iteration of the sitemap `while` loop. -/
inductive SmStep where
  | stop
  | next (st : SmState)

/-- One iteration of the `while` loop of
`ListingScraper._discover_from_sitemaps`: pop a sitemap URL (the loop
also stops once the article set reaches the cap), skip it when
visited, otherwise attempt the fetch (a failed fetch or parse is
logged and skipped) and process its `loc` entries. -/
def sitemapStep (site : Site) (templateUrl : String) (cap : Nat) (st : SmState) :
    SmStep :=
  match st.queue with
  | [] => SmStep.stop
  | u :: rest =>
    if st.acc.length < cap then
      if u ∈ st.visited then SmStep.next ⟨rest, st.visited, st.acc, st.flog⟩
      else
        match site.fetchSitemap u with
        | Option.none => SmStep.next ⟨rest, u :: st.visited, st.acc, st.flog ++ [u]⟩
        | Option.some locs =>
          let pl := processLocs templateUrl cap (u :: st.visited) locs st.acc []
          SmStep.next ⟨rest ++ pl.2, u :: st.visited, pl.1, st.flog ++ [u]⟩
    else SmStep.stop

/-- The `while` loop of `_discover_from_sitemaps`, driven by
`sitemapStep` under a fuel bound. -/
def discoverSitemapsGo (site : Site) (templateUrl : String) (cap : Nat) :
    Nat → SmState → List String × List String
  | 0, st => (st.acc, st.flog)
  | fuel + 1, st =>
    match sitemapStep site templateUrl cap st with
    | SmStep.stop => (st.acc, st.flog)
    | SmStep.next st1 => discoverSitemapsGo site templateUrl cap fuel st1

/-- `ListingScraper._discover_from_sitemaps` (fetch log added for the
sitemap exclusion property). -/
def discoverFromSitemaps (site : Site) (templateUrl : String) (cap fuel : Nat) :
    List String × List String :=
  discoverSitemapsGo site templateUrl cap fuel
    ⟨candidateSitemapUrls templateUrl, [], [], []⟩

theorem discoverSitemapsGo_next {site : Site} {templateUrl : String} {cap : Nat}
    {st st1 : SmState} (fuel : Nat)
    (h : sitemapStep site templateUrl cap st = SmStep.next st1) :
    discoverSitemapsGo site templateUrl cap (fuel + 1) st =
      discoverSitemapsGo site templateUrl cap fuel st1 := by
  show (match sitemapStep site templateUrl cap st with
    | SmStep.stop => (st.acc, st.flog)
    | SmStep.next st2 => discoverSitemapsGo site templateUrl cap fuel st2) =
    discoverSitemapsGo site templateUrl cap fuel st1
  rw [h]

theorem discoverSitemapsGo_stop {site : Site} {templateUrl : String} {cap : Nat}
    {st : SmState} (fuel : Nat)
    (h : sitemapStep site templateUrl cap st = SmStep.stop) :
    discoverSitemapsGo site templateUrl cap (fuel + 1) st = (st.acc, st.flog) := by
  show (match sitemapStep site templateUrl cap st with
    | SmStep.stop => (st.acc, st.flog)
    | SmStep.next st2 => discoverSitemapsGo site templateUrl cap fuel st2) =
    (st.acc, st.flog)
  rw [h]

/-- The per-listing loop state of `ListingScraper.discover`. -/
structure DiscoverState where
  discovered : List String
  hadError : Bool
  hadResults : Bool
  lastError : String
deriving Repr, DecidableEq, Inhabited

/-- The `for listing in template.listings` loop of `discover`: listing
errors are caught and flagged; non-empty results are unioned in and
flagged. -/
def discoverLoop (site : Site) (templateUrl : String) (maxPages fuel : Nat) :
    List ListingConfig → DiscoverState → DiscoverState
  | [], st => st
  | l :: rest, st =>
    match scrapeListing site templateUrl l maxPages fuel with
    | Except.error e =>
      discoverLoop site templateUrl maxPages fuel rest
        { st with hadError := true, lastError := e }
    | Except.ok (urls, _) =>
      if urls ≠ [] then
        discoverLoop site templateUrl maxPages fuel rest
          { st with discovered := urls.foldl setInsert st.discovered,
                    hadResults := true }
      else discoverLoop site templateUrl maxPages fuel rest st

/-- The set `discovered` accumulates across both strategies: the
sitemap pass (when enabled) unioned with every successful listing
pass's results. -/
def discoverUnion (site : Site) (tmpl : RecipeTemplate)
    (maxPages cap lfuel sfuel : Nat) (enableSitemaps : Bool) : DiscoverState :=
  let init := if enableSitemaps then (discoverFromSitemaps site tmpl.url cap sfuel).1 else []
  discoverLoop site tmpl.url maxPages lfuel tmpl.listings ⟨init, false, false, ""⟩

/-- The message of the `ListingDiscoveryError` raised when a listing
strategy errored and nothing was discovered (`__init__` appends the
last underlying error). -/
def discoverFailMsg (tmpl : RecipeTemplate) (lastError : String) : String :=
  "Failed to discover listings for " ++ tmpl.name ++ ": " ++ lastError

/-- The message of the `ListingDiscoveryError` raised when nothing was
discovered and no listing produced results. -/
def discoverEmptyMsg (tmpl : RecipeTemplate) : String :=
  "No article URLs discovered for " ++ tmpl.name ++ " (" ++ tmpl.url ++
    "). Verify the listing link selector configuration."

/-- `ListingScraper.discover`: run the sitemap pass, then every listing
spec; raise `ListingDiscoveryError` when nothing was discovered and a
listing errored, or when nothing was discovered and no listing produced
results. -/
def discover (site : Site) (tmpl : RecipeTemplate)
    (maxPages cap lfuel sfuel : Nat) (enableSitemaps : Bool) :
    Except String (List String) :=
  let st := discoverUnion site tmpl maxPages cap lfuel sfuel enableSitemaps
  if st.hadError && st.discovered = [] then
    Except.error (discoverFailMsg tmpl st.lastError)
  else if st.discovered = [] && !st.hadResults then
    Except.error (discoverEmptyMsg tmpl)
  else Except.ok st.discovered

theorem mem_setInsert {l : List String} {x a : String} :
    a ∈ setInsert l x ↔ a ∈ l ∨ a = x := by
  unfold setInsert
  by_cases h : x ∈ l
  · rw [if_pos h]
    exact ⟨fun h' => Or.inl h', fun h' => h'.elim id (fun he => he ▸ h)⟩
  · rw [if_neg h]
    simp [List.mem_append]

theorem mem_foldl_setInsert {l : List String} :
    ∀ {acc : List String} {a : String},
      a ∈ List.foldl setInsert acc l ↔ a ∈ acc ∨ a ∈ l := by
  induction l with
  | nil => intro acc a; simp
  | cons x xs ih =>
    intro acc a
    rw [List.foldl_cons, ih, mem_setInsert, List.mem_cons]
    constructor
    · rintro ((h | h) | h)
      · exact Or.inl h
      · exact Or.inr (Or.inl h)
      · exact Or.inr (Or.inr h)
    · rintro (h | h | h)
      · exact Or.inl (Or.inl h)
      · exact Or.inl (Or.inr h)
      · exact Or.inr h

theorem foldl_setInsert_ne_nil {l acc : List String} (h : l ≠ []) :
    List.foldl setInsert acc l ≠ [] := by
  match l, h with
  | x :: xs, _ =>
    intro hnil
    have hx : x ∈ List.foldl setInsert acc (x :: xs) :=
      mem_foldl_setInsert.mpr (Or.inr (List.mem_cons_self x xs))
    rw [hnil] at hx
    exact absurd hx (List.not_mem_nil x)

theorem discoverLoop_results_nonempty (site : Site) (templateUrl : String)
    (maxPages fuel : Nat) :
    ∀ (ls : List ListingConfig) (st : DiscoverState),
      (st.hadResults = true → st.discovered ≠ []) →
      ((discoverLoop site templateUrl maxPages fuel ls st).hadResults = true →
        (discoverLoop site templateUrl maxPages fuel ls st).discovered ≠ []) := by
  intro ls
  induction ls with
  | nil => intro st h; simpa [discoverLoop] using h
  | cons l rest ih =>
    intro st h
    unfold discoverLoop
    cases hres : scrapeListing site templateUrl l maxPages fuel with
    | error e => exact ih _ (fun hr => h hr)
    | ok pair =>
      obtain ⟨urls, flog⟩ := pair
      dsimp only
      by_cases hu : urls ≠ []
      · rw [if_pos hu]
        exact ih _ (fun _ => foldl_setInsert_ne_nil hu)
      · rw [if_neg hu]
        exact ih _ h

/-- C1 as amended: `discover` raises `ListingDiscoveryError` exactly
when the union of every strategy's results is empty — whether or not a
strategy errored — and otherwise returns that non-empty union; it never
returns an empty set. -/
theorem C1_discover_raises_iff_union_empty (site : Site) (tmpl : RecipeTemplate)
    (maxPages cap lfuel sfuel : Nat) (enableSitemaps : Bool) :
    discover site tmpl maxPages cap lfuel sfuel enableSitemaps =
      (if (discoverUnion site tmpl maxPages cap lfuel sfuel enableSitemaps).discovered = [] then
        Except.error
          (if (discoverUnion site tmpl maxPages cap lfuel sfuel enableSitemaps).hadError then
            discoverFailMsg tmpl
              (discoverUnion site tmpl maxPages cap lfuel sfuel enableSitemaps).lastError
          else discoverEmptyMsg tmpl)
      else
        Except.ok (discoverUnion site tmpl maxPages cap lfuel sfuel enableSitemaps).discovered) := by
  have hinv :
      (discoverUnion site tmpl maxPages cap lfuel sfuel enableSitemaps).hadResults = true →
      (discoverUnion site tmpl maxPages cap lfuel sfuel enableSitemaps).discovered ≠ [] := by
    unfold discoverUnion
    exact discoverLoop_results_nonempty site tmpl.url maxPages lfuel tmpl.listings _
      (fun h => absurd h (by simp))
  unfold discover
  set st := discoverUnion site tmpl maxPages cap lfuel sfuel enableSitemaps with hst
  by_cases hd : st.discovered = []
  · rw [if_pos hd]
    by_cases he : st.hadError = true
    · rw [if_pos he]
      have : (st.hadError && decide (st.discovered = [])) = true := by
        rw [he, decide_eq_true hd]; rfl
      simp only [this, if_true]
    · rw [if_neg he]
      have h1 : (st.hadError && decide (st.discovered = [])) = false := by
        have : st.hadError = false := Bool.eq_false_iff.mpr he
        rw [this]; rfl
      have h2 : st.hadResults = false := by
        cases hres : st.hadResults with
        | false => rfl
        | true => exact absurd hd (hinv hres)
      have h3 : (decide (st.discovered = []) && !st.hadResults) = true := by
        rw [decide_eq_true hd, h2]; rfl
      simp only [h1, Bool.false_eq_true, if_false, h3, if_true]
  · rw [if_neg hd]
    have h1 : (st.hadError && decide (st.discovered = [])) = false := by
      rw [decide_eq_false hd]
      exact Bool.and_false _
    have h2 : (decide (st.discovered = []) && !st.hadResults) = false := by
      rw [decide_eq_false hd]
      rfl
    simp only [h1, Bool.false_eq_true, if_false, h2]

/-- The site of the C1 counterexample: every listing page fetches
cleanly but contains no links at all, and no sitemap exists. -/
def c1site : Site where
  fetchPage := fun _ => Except.ok { finalUrl := "https://example.com/recipes/" }
  fetchSitemap := fun _ => Option.none

/-- The template of the C1 counterexample. -/
def c1tmpl : RecipeTemplate where
  name := "Test"
  url := "https://example.com/recipes/"
  listings := [⟨"https://example.com/recipes/", Option.none⟩]

set_option maxHeartbeats 2000000 in
/-- C1 counterexample: every strategy completes cleanly with zero URLs
and no strategy errors — the listing pass returns an empty set after one
successful fetch, the sitemap pass returns an empty set — yet `discover`
raises `ListingDiscoveryError` instead of returning the empty set. -/
theorem C1_clean_zero_result_still_raises :
    scrapeListing c1site c1tmpl.url ⟨"https://example.com/recipes/", Option.none⟩ 200 5 =
      Except.ok ([], ["https://example.com/recipes/"]) ∧
    (discoverFromSitemaps c1site c1tmpl.url 2000 5).1 = [] ∧
    discover c1site c1tmpl 200 2000 5 5 true =
      Except.error (discoverEmptyMsg c1tmpl) :=
  ⟨rfl, rfl, rfl⟩

theorem processLocs_on_domain (templateUrl : String) (cap : Nat)
    (visited : List String) :
    ∀ (locs acc qadd : List String),
      (∀ u ∈ acc, sameDomain templateUrl u = true) →
      ∀ u ∈ (processLocs templateUrl cap visited locs acc qadd).1,
        sameDomain templateUrl u = true := by
  intro locs
  induction locs with
  | nil => intro acc qadd hacc; simpa [processLocs] using hacc
  | cons loc rest ih =>
    intro acc qadd hacc
    unfold processLocs
    by_cases h1 : stripStr loc = ""
    · rw [if_pos h1]; exact ih acc qadd hacc
    · rw [if_neg h1]
      by_cases h2 : sameDomain templateUrl (stripStr loc) = true
      · have h2' : (!sameDomain templateUrl (stripStr loc)) = false := by
          rw [h2]; rfl
        simp only [h2', Bool.false_eq_true, if_false]
        by_cases h3 : (strEndsWith (stripStr loc) ".xml" ||
            strEndsWith (stripStr loc) ".xml.gz") = true
        · simp only [h3, if_true]
          by_cases h4 : (shouldQueueSitemap templateUrl (stripStr loc) &&
              !decide (stripStr loc ∈ visited)) = true
          · simp only [h4, if_true]; exact ih acc _ hacc
          · simp only [h4, Bool.false_eq_true, if_false]; exact ih acc qadd hacc
        · simp only [h3, Bool.false_eq_true, if_false]
          have hacc1 : ∀ u ∈ leafInsert templateUrl acc (stripStr loc),
              sameDomain templateUrl u = true := by
            intro u hu
            unfold leafInsert at hu
            by_cases h5 : shouldIncludeUrl templateUrl templateUrl (stripStr loc) = true
            · rw [if_pos h5] at hu
              rcases mem_setInsert.mp hu with h | h
              · exact hacc u h
              · rw [h]; exact h2
            · rw [if_neg h5] at hu
              exact hacc u hu
          by_cases h6 : (leafInsert templateUrl acc (stripStr loc)).length ≥ cap
          · rw [if_pos h6]
            intro u hu
            simp only [] at hu
            exact hacc1 u hu
          · rw [if_neg h6]
            intro u hu
            exact ih (leafInsert templateUrl acc (stripStr loc)) qadd hacc1 u hu
      · have h2' : (!sameDomain templateUrl (stripStr loc)) = true := by
          rw [Bool.eq_false_iff.mpr h2]; rfl
        simp only [h2', if_true]
        intro u hu
        exact ih acc qadd hacc u hu

theorem sitemapStep_on_domain {site : Site} {templateUrl : String} {cap : Nat}
    {st st1 : SmState}
    (hacc : ∀ u ∈ st.acc, sameDomain templateUrl u = true)
    (h : sitemapStep site templateUrl cap st = SmStep.next st1) :
    ∀ u ∈ st1.acc, sameDomain templateUrl u = true := by
  unfold sitemapStep at h
  cases hq : st.queue with
  | nil =>
    rw [hq] at h
    dsimp only at h
    cases h
  | cons u rest =>
    rw [hq] at h
    dsimp only at h
    by_cases hcap : st.acc.length < cap
    · rw [if_pos hcap] at h
      by_cases hv : u ∈ st.visited
      · rw [if_pos hv] at h
        cases h
        exact hacc
      · rw [if_neg hv] at h
        cases hf : site.fetchSitemap u with
        | none =>
          rw [hf] at h
          cases h
          exact hacc
        | some locs =>
          rw [hf] at h
          cases h
          exact processLocs_on_domain templateUrl cap (u :: st.visited) locs
            st.acc [] hacc
    · rw [if_neg hcap] at h
      cases h

theorem discoverSitemapsGo_on_domain (site : Site) (templateUrl : String)
    (cap : Nat) :
    ∀ (fuel : Nat) (st : SmState),
      (∀ u ∈ st.acc, sameDomain templateUrl u = true) →
      ∀ u ∈ (discoverSitemapsGo site templateUrl cap fuel st).1,
        sameDomain templateUrl u = true := by
  intro fuel
  induction fuel with
  | zero => intro st hacc; exact hacc
  | succ fuel ih =>
    intro st hacc
    unfold discoverSitemapsGo
    cases hstep : sitemapStep site templateUrl cap st with
    | stop => exact hacc
    | next st1 => exact ih st1 (sitemapStep_on_domain hacc hstep)

theorem jsonldLinksGo_on_domain (baseUrl : String) :
    ∀ (raws acc : List String),
      (∀ u ∈ acc, sameDomain baseUrl u = true) →
      ∀ u ∈ jsonldLinksGo baseUrl raws acc, sameDomain baseUrl u = true := by
  intro raws
  induction raws with
  | nil => intro acc hacc; simpa [jsonldLinksGo] using hacc
  | cons r rest ih =>
    intro acc hacc
    unfold jsonldLinksGo
    by_cases h1 : r = ""
    · rw [if_pos h1]; exact ih acc hacc
    · rw [if_neg h1]
      by_cases h2 : urljoin baseUrl r = ""
      · rw [if_pos h2]; exact ih acc hacc
      · rw [if_neg h2]
        by_cases h3 : looksLikeAssetUrl (urljoin baseUrl r) = true
        · simp only [h3, if_true]; exact ih acc hacc
        · simp only [h3, Bool.false_eq_true, if_false]
          by_cases h4 : sameDomain baseUrl (urljoin baseUrl r) = true
          · have h4' : (!sameDomain baseUrl (urljoin baseUrl r)) = false := by
              rw [h4]; rfl
            simp only [h4', Bool.false_eq_true, if_false]
            refine ih _ ?_
            intro u hu
            rcases mem_setInsert.mp hu with h | h
            · exact hacc u h
            · rw [h]; exact h4
          · have h4' : (!sameDomain baseUrl (urljoin baseUrl r)) = true := by
              rw [Bool.eq_false_iff.mpr h4]; rfl
            simp only [h4', if_true]
            exact ih acc hacc

/-- C3 as amended: the domain rule is enforced where the code applies
it — every URL the JSON-LD listing fallback yields is on the fetched
page's domain, and every URL the sitemap pass yields is on the
template's domain — but candidates found via a listing's CSS link
selector are not domain-checked (see the counterexample). -/
theorem C3_domain_checked_passes :
    (∀ (baseUrl : String) (raws : List String),
      ∀ u ∈ jsonldListingLinks baseUrl raws, sameDomain baseUrl u = true) ∧
    (∀ (site : Site) (templateUrl : String) (cap fuel : Nat),
      ∀ u ∈ (discoverFromSitemaps site templateUrl cap fuel).1,
        sameDomain templateUrl u = true) := by
  constructor
  · intro baseUrl raws
    exact jsonldLinksGo_on_domain baseUrl raws [] (by intro u hu; cases hu)
  · intro site templateUrl cap fuel
    exact discoverSitemapsGo_on_domain site templateUrl cap fuel
      ⟨candidateSitemapUrls templateUrl, [], [], []⟩ (by intro u hu; cases hu)

/-- Witness for the amended C3 at concrete inputs: a relative JSON-LD
candidate resolves on-domain and is reported on-domain. -/
theorem C3_domain_checked_passes_witness :
    "https://example.com/recipes/a" ∈
        jsonldListingLinks "https://example.com/recipes/" ["/recipes/a"] ∧
    sameDomain "https://example.com/recipes/" "https://example.com/recipes/a" = true :=
  ⟨by decide,
   C3_domain_checked_passes.1 "https://example.com/recipes/" ["/recipes/a"]
     "https://example.com/recipes/a" (by decide)⟩

/-- The site of the C3 counterexample: the listing page's link selector
matches one absolute off-domain link. -/
def c3site : Site where
  fetchPage := fun u =>
    if u = "https://example.com/recipes/" then
      Except.ok { finalUrl := "https://example.com/recipes/",
                  linkHrefs := ["https://evil.com/spam-recipes/"] }
    else Except.error "unexpected fetch"
  fetchSitemap := fun _ => Option.none

/-- The template of the C3 counterexample. -/
def c3tmpl : RecipeTemplate where
  name := "Test"
  url := "https://example.com/"
  listings := [⟨"https://example.com/recipes/", Option.none⟩]

/-- Page 1 of the C8 pagination scenario. -/
def c8p1 : String := "http://e.co/r/"

/-- Page 2 of the C8 pagination scenario. -/
def c8p2 : String := "http://e.co/r/p2/"

/-- Page 3 of the C8 pagination scenario. -/
def c8p3 : String := "http://e.co/r/p3/"

/-- Template URL of the C8 scenario. -/
def c8tmplUrl : String := "http://e.co/"

/-- Listing spec of the C8 scenario. -/
def c8listing : ListingConfig := ⟨c8p1, Option.some "a.page-numbers"⟩

/-- The C8 scenario site: a 3-page pagination chain (page 1 links to
page 2, page 2 to page 3, page 3 to nothing) whose article links are
arbitrary lists. -/
def c8site (articleLinks1 articleLinks2 articleLinks3 : List String) : Site where
  fetchPage := fun u =>
    if u = c8p1 then
      Except.ok { finalUrl := c8p1, linkHrefs := articleLinks1,
                  paginationHrefs := ["/r/p2/"] }
    else if u = c8p2 then
      Except.ok { finalUrl := c8p2, linkHrefs := articleLinks2,
                  paginationHrefs := ["/r/p3/"] }
    else if u = c8p3 then
      Except.ok { finalUrl := c8p3, linkHrefs := articleLinks3 }
    else Except.error "unexpected fetch"
  fetchSitemap := fun _ => Option.none

/-- One page's accepted article links in the C8 scenario. -/
def c8pageUrls (baseUrl : String) (links : List String) : List String :=
  collectPageUrls c8tmplUrl c8p1 baseUrl links []

/-- The article set the crawl accumulates over the three pages. -/
def c8articles (articleLinks1 articleLinks2 articleLinks3 : List String) : List String :=
  List.foldl setInsert
    (List.foldl setInsert
      (List.foldl setInsert [] (c8pageUrls c8p1 articleLinks1))
      (c8pageUrls c8p2 articleLinks2))
    (c8pageUrls c8p3 articleLinks3)

set_option maxHeartbeats 1000000 in
theorem c8crawl1 (articleLinks1 articleLinks2 articleLinks3 arts flog : List String) :
    crawlStep (c8site articleLinks1 articleLinks2 articleLinks3) c8tmplUrl c8listing 200
        ⟨[c8p1], ["http://e.co/r"], [], arts, flog, 0⟩ =
      CrawlStep.next ⟨[c8p2], ["http://e.co/r/p2"], ["http://e.co/r"],
        List.foldl setInsert arts (c8pageUrls c8p1 articleLinks1),
        flog ++ [c8p1], 1⟩ := by
  unfold crawlStep
  dsimp only
  rw [if_pos (by decide : (0 : Nat) < 200)]
  rw [if_neg (by decide : ¬(normaliseBaseUrl c8p1 ∈ ([] : List String)))]
  rw [show (c8site articleLinks1 articleLinks2 articleLinks3).fetchPage c8p1 =
    Except.ok (⟨c8p1, articleLinks1, [], ["/r/p2/"]⟩ : ListingPage) from rfl]
  dsimp only
  rw [if_neg (by decide : ¬(normaliseBaseUrl c8p1 ∈ ([] : List String)))]
  congr 1

set_option maxHeartbeats 1000000 in
theorem c8crawl2 (articleLinks1 articleLinks2 articleLinks3 arts flog : List String) :
    crawlStep (c8site articleLinks1 articleLinks2 articleLinks3) c8tmplUrl c8listing 200
        ⟨[c8p2], ["http://e.co/r/p2"], ["http://e.co/r"], arts, flog, 1⟩ =
      CrawlStep.next ⟨[c8p3], ["http://e.co/r/p3"],
        ["http://e.co/r", "http://e.co/r/p2"],
        List.foldl setInsert arts (c8pageUrls c8p2 articleLinks2),
        flog ++ [c8p2], 2⟩ := by
  unfold crawlStep
  dsimp only
  rw [if_pos (by decide : (1 : Nat) < 200)]
  rw [if_neg (by decide : ¬(normaliseBaseUrl c8p2 ∈ ["http://e.co/r"]))]
  rw [show (c8site articleLinks1 articleLinks2 articleLinks3).fetchPage c8p2 =
    Except.ok (⟨c8p2, articleLinks2, [], ["/r/p3/"]⟩ : ListingPage) from rfl]
  dsimp only
  rw [if_neg (by decide : ¬(normaliseBaseUrl c8p2 ∈ ["http://e.co/r"]))]
  congr 1

set_option maxHeartbeats 1000000 in
theorem c8crawl3 (articleLinks1 articleLinks2 articleLinks3 arts flog : List String) :
    crawlStep (c8site articleLinks1 articleLinks2 articleLinks3) c8tmplUrl c8listing 200
        ⟨[c8p3], ["http://e.co/r/p3"], ["http://e.co/r", "http://e.co/r/p2"],
          arts, flog, 2⟩ =
      CrawlStep.next ⟨[], [],
        ["http://e.co/r", "http://e.co/r/p2", "http://e.co/r/p3"],
        List.foldl setInsert arts (c8pageUrls c8p3 articleLinks3),
        flog ++ [c8p3], 3⟩ := by
  unfold crawlStep
  dsimp only
  rw [if_pos (by decide : (2 : Nat) < 200)]
  rw [if_neg (by decide :
    ¬(normaliseBaseUrl c8p3 ∈ ["http://e.co/r", "http://e.co/r/p2"]))]
  rw [show (c8site articleLinks1 articleLinks2 articleLinks3).fetchPage c8p3 =
    Except.ok (⟨c8p3, articleLinks3, [], []⟩ : ListingPage) from rfl]
  dsimp only
  rw [if_neg (by decide :
    ¬(normaliseBaseUrl c8p3 ∈ ["http://e.co/r", "http://e.co/r/p2"]))]
  congr 1

theorem c8crawl4 (articleLinks1 articleLinks2 articleLinks3 arts flog : List String) :
    crawlStep (c8site articleLinks1 articleLinks2 articleLinks3) c8tmplUrl c8listing 200
        ⟨[], [], ["http://e.co/r", "http://e.co/r/p2", "http://e.co/r/p3"],
          arts, flog, 3⟩ = CrawlStep.stop := rfl

set_option maxHeartbeats 1000000 in
/-- C8: on a 3-page pagination chain the listing crawl fetches exactly
the three pages, each exactly once and in order, and returns the union
of the three pages' accepted article links, whatever those links are. -/
theorem C8_pagination_chain (articleLinks1 articleLinks2 articleLinks3 : List String) :
    scrapeListing (c8site articleLinks1 articleLinks2 articleLinks3)
        c8tmplUrl c8listing 200 10 =
      Except.ok (c8articles articleLinks1 articleLinks2 articleLinks3,
        [c8p1, c8p2, c8p3]) ∧
    ∀ u, u ∈ c8articles articleLinks1 articleLinks2 articleLinks3 ↔
      u ∈ c8pageUrls c8p1 articleLinks1 ∨ u ∈ c8pageUrls c8p2 articleLinks2 ∨
        u ∈ c8pageUrls c8p3 articleLinks3 := by
  constructor
  · calc
      scrapeListing (c8site articleLinks1 articleLinks2 articleLinks3)
          c8tmplUrl c8listing 200 10 =
          scrapeListingGo (c8site articleLinks1 articleLinks2 articleLinks3)
            c8tmplUrl c8listing 200 10
            ⟨[c8p1], ["http://e.co/r"], [], [], [], 0⟩ := rfl
      _ = scrapeListingGo (c8site articleLinks1 articleLinks2 articleLinks3)
            c8tmplUrl c8listing 200 9
            ⟨[c8p2], ["http://e.co/r/p2"], ["http://e.co/r"],
              List.foldl setInsert [] (c8pageUrls c8p1 articleLinks1),
              [] ++ [c8p1], 1⟩ :=
        scrapeListingGo_next 9 (c8crawl1 articleLinks1 articleLinks2 articleLinks3 [] [])
      _ = scrapeListingGo (c8site articleLinks1 articleLinks2 articleLinks3)
            c8tmplUrl c8listing 200 8
            ⟨[c8p3], ["http://e.co/r/p3"], ["http://e.co/r", "http://e.co/r/p2"],
              List.foldl setInsert
                (List.foldl setInsert [] (c8pageUrls c8p1 articleLinks1))
                (c8pageUrls c8p2 articleLinks2),
              ([] ++ [c8p1]) ++ [c8p2], 2⟩ :=
        scrapeListingGo_next 8 (c8crawl2 articleLinks1 articleLinks2 articleLinks3 _ _)
      _ = scrapeListingGo (c8site articleLinks1 articleLinks2 articleLinks3)
            c8tmplUrl c8listing 200 7
            ⟨[], [], ["http://e.co/r", "http://e.co/r/p2", "http://e.co/r/p3"],
              List.foldl setInsert
                (List.foldl setInsert
                  (List.foldl setInsert [] (c8pageUrls c8p1 articleLinks1))
                  (c8pageUrls c8p2 articleLinks2))
                (c8pageUrls c8p3 articleLinks3),
              (([] ++ [c8p1]) ++ [c8p2]) ++ [c8p3], 3⟩ :=
        scrapeListingGo_next 7 (c8crawl3 articleLinks1 articleLinks2 articleLinks3 _ _)
      _ = Except.ok (c8articles articleLinks1 articleLinks2 articleLinks3,
            [c8p1, c8p2, c8p3]) := by
        rw [scrapeListingGo_stop 6
          (c8crawl4 articleLinks1 articleLinks2 articleLinks3 _ _)]
        rfl
  · intro u
    simp only [c8articles, mem_foldl_setInsert, List.not_mem_nil, false_or,
      or_assoc]

theorem setInsert_length_le (l : List String) (x : String) :
    (setInsert l x).length ≤ l.length + 1 := by
  unfold setInsert
  by_cases h : x ∈ l
  · rw [if_pos h]
    omega
  · rw [if_neg h]
    simp

theorem leafInsert_length_le (templateUrl : String) (acc : List String) (t : String) :
    (leafInsert templateUrl acc t).length ≤ acc.length + 1 := by
  unfold leafInsert
  by_cases h : shouldIncludeUrl templateUrl templateUrl t = true
  · rw [if_pos h]
    exact setInsert_length_le acc t
  · rw [if_neg h]
    omega

/-- What the sitemap loc loop does to a list of entries that contains no
child sitemaps: strip each, drop empty and off-domain entries, and add
the rest through `_should_include_url`. -/
def locsFoldLeaf (templateUrl : String) : List String → List String → List String
  | [], acc => acc
  | loc :: rest, acc =>
    if stripStr loc = "" then locsFoldLeaf templateUrl rest acc
    else if !sameDomain templateUrl (stripStr loc) then
      locsFoldLeaf templateUrl rest acc
    else locsFoldLeaf templateUrl rest (leafInsert templateUrl acc (stripStr loc))

theorem processLocs_no_sitemaps (templateUrl : String) (cap : Nat)
    (visited : List String) :
    ∀ (locs acc qadd : List String),
      (∀ l ∈ locs, strEndsWith (stripStr l) ".xml" = false ∧
        strEndsWith (stripStr l) ".xml.gz" = false) →
      acc.length + locs.length < cap →
      processLocs templateUrl cap visited locs acc qadd =
        (locsFoldLeaf templateUrl locs acc, qadd) := by
  intro locs
  induction locs with
  | nil => intro acc qadd _ _; rfl
  | cons loc rest ih =>
    intro acc qadd hx hlen
    have hx0 := hx loc (List.mem_cons_self loc rest)
    have hxr : ∀ l ∈ rest, strEndsWith (stripStr l) ".xml" = false ∧
        strEndsWith (stripStr l) ".xml.gz" = false :=
      fun l hl => hx l (List.mem_cons_of_mem loc hl)
    simp only [List.length_cons] at hlen
    unfold processLocs locsFoldLeaf
    by_cases h1 : stripStr loc = ""
    · rw [if_pos h1, if_pos h1]
      exact ih acc qadd hxr (by omega)
    · rw [if_neg h1, if_neg h1]
      by_cases h2 : sameDomain templateUrl (stripStr loc) = true
      · have h2f : (!sameDomain templateUrl (stripStr loc)) = false := by
          rw [h2]; rfl
        simp only [h2f, Bool.false_eq_true, if_false]
        have h3 : (strEndsWith (stripStr loc) ".xml" ||
            strEndsWith (stripStr loc) ".xml.gz") = false := by
          rw [hx0.1, hx0.2]; rfl
        simp only [h3, Bool.false_eq_true, if_false]
        have hle := leafInsert_length_le templateUrl acc (stripStr loc)
        rw [if_neg (by omega :
          ¬((leafInsert templateUrl acc (stripStr loc)).length ≥ cap))]
        exact ih _ qadd hxr (by omega)
      · have h2t : (!sameDomain templateUrl (stripStr loc)) = true := by
          rw [Bool.eq_false_iff.mpr h2]; rfl
        simp only [h2t, if_true]
        exact ih acc qadd hxr (by omega)

/-- The sitemap index of the C9 scenario. -/
def c9s1 : String := "http://e.co/sitemap.xml"

/-- Second probed sitemap candidate of the C9 scenario. -/
def c9s2 : String := "http://e.co/sitemap_index.xml"

/-- Third probed sitemap candidate of the C9 scenario. -/
def c9s3 : String := "http://e.co/sitemap-index.xml"

/-- Fourth probed sitemap candidate of the C9 scenario. -/
def c9s4 : String := "http://e.co/wp-sitemap.xml"

/-- The recipes child sitemap of the C9 scenario. -/
def c9rc : String := "http://e.co/storage/recipes-1.xml"

/-- The pages child sitemap of the C9 scenario. -/
def c9pc : String := "http://e.co/storage/pages-1.xml"

/-- The configured listing page of the C9 scenario. -/
def c9lp : String := "http://e.co/r/"

/-- The C9 scenario site: `sitemap.xml` is an index pointing at one
recipes child and one pages child under `/storage/`; the other probed
candidates are empty sitemaps; the recipes child holds arbitrary leaf
entries; the listing page holds arbitrary article links. -/
def c9site (leaves listingLinks : List String) : Site where
  fetchPage := fun u =>
    if u = c9lp then Except.ok { finalUrl := c9lp, linkHrefs := listingLinks }
    else Except.error "unexpected fetch"
  fetchSitemap := fun u =>
    if u = c9s1 then Option.some [c9rc, c9pc]
    else if u = c9s2 then Option.some []
    else if u = c9s3 then Option.some []
    else if u = c9s4 then Option.some []
    else if u = c9rc then Option.some leaves
    else Option.none

/-- The template of the C9 scenario. -/
def c9tmpl : RecipeTemplate where
  name := "T"
  url := "http://e.co/"
  listings := [⟨c9lp, Option.none⟩]

/-- The listing pass's accepted article links in the C9 scenario. -/
def c9listingUrls (listingLinks : List String) : List String :=
  collectPageUrls "http://e.co/" c9lp c9lp listingLinks []

set_option maxHeartbeats 1000000 in
theorem c9sm1 (leaves listingLinks : List String) :
    sitemapStep (c9site leaves listingLinks) "http://e.co/" 2000
        ⟨[c9s1, c9s2, c9s3, c9s4], [], [], []⟩ =
      SmStep.next ⟨[c9s2, c9s3, c9s4, c9rc], [c9s1], [], [c9s1]⟩ := rfl

set_option maxHeartbeats 1000000 in
theorem c9sm2 (leaves listingLinks : List String) :
    sitemapStep (c9site leaves listingLinks) "http://e.co/" 2000
        ⟨[c9s2, c9s3, c9s4, c9rc], [c9s1], [], [c9s1]⟩ =
      SmStep.next ⟨[c9s3, c9s4, c9rc], [c9s2, c9s1], [], [c9s1, c9s2]⟩ := rfl

set_option maxHeartbeats 1000000 in
theorem c9sm3 (leaves listingLinks : List String) :
    sitemapStep (c9site leaves listingLinks) "http://e.co/" 2000
        ⟨[c9s3, c9s4, c9rc], [c9s2, c9s1], [], [c9s1, c9s2]⟩ =
      SmStep.next ⟨[c9s4, c9rc], [c9s3, c9s2, c9s1], [], [c9s1, c9s2, c9s3]⟩ := rfl

set_option maxHeartbeats 1000000 in
theorem c9sm4 (leaves listingLinks : List String) :
    sitemapStep (c9site leaves listingLinks) "http://e.co/" 2000
        ⟨[c9s4, c9rc], [c9s3, c9s2, c9s1], [], [c9s1, c9s2, c9s3]⟩ =
      SmStep.next ⟨[c9rc], [c9s4, c9s3, c9s2, c9s1], [], [c9s1, c9s2, c9s3, c9s4]⟩ :=
  rfl

set_option maxHeartbeats 1000000 in
theorem c9sm5 (leaves listingLinks : List String)
    (hx : ∀ l ∈ leaves, strEndsWith (stripStr l) ".xml" = false ∧
      strEndsWith (stripStr l) ".xml.gz" = false)
    (hlen : leaves.length < 2000) :
    sitemapStep (c9site leaves listingLinks) "http://e.co/" 2000
        ⟨[c9rc], [c9s4, c9s3, c9s2, c9s1], [], [c9s1, c9s2, c9s3, c9s4]⟩ =
      SmStep.next ⟨[], [c9rc, c9s4, c9s3, c9s2, c9s1],
        locsFoldLeaf "http://e.co/" leaves [],
        [c9s1, c9s2, c9s3, c9s4, c9rc]⟩ := by
  unfold sitemapStep
  dsimp only
  rw [if_pos (by decide : List.length ([] : List String) < 2000)]
  rw [if_neg (by decide : ¬(c9rc ∈ [c9s4, c9s3, c9s2, c9s1]))]
  rw [show (c9site leaves listingLinks).fetchSitemap c9rc = Option.some leaves
    from rfl]
  dsimp only
  rw [processLocs_no_sitemaps "http://e.co/" 2000
    (c9rc :: [c9s4, c9s3, c9s2, c9s1]) leaves [] [] hx
    (by simp only [List.length_nil]; omega)]
  congr 1

set_option maxHeartbeats 1000000 in
theorem c9cr1 (leaves listingLinks : List String) :
    crawlStep (c9site leaves listingLinks) "http://e.co/" ⟨c9lp, Option.none⟩ 200
        ⟨[c9lp], ["http://e.co/r"], [], [], [], 0⟩ =
      CrawlStep.next ⟨[], [], ["http://e.co/r"],
        List.foldl setInsert [] (c9listingUrls listingLinks), [] ++ [c9lp], 1⟩ := by
  unfold crawlStep
  dsimp only
  rw [if_pos (by decide : (0 : Nat) < 200)]
  rw [if_neg (by decide : ¬(normaliseBaseUrl c9lp ∈ ([] : List String)))]
  rw [show (c9site leaves listingLinks).fetchPage c9lp =
    Except.ok (⟨c9lp, listingLinks, [], []⟩ : ListingPage) from rfl]
  dsimp only
  rw [if_neg (by decide : ¬(normaliseBaseUrl c9lp ∈ ([] : List String)))]
  congr 1

theorem c9cr2 (leaves listingLinks : List String) (arts flog : List String) :
    crawlStep (c9site leaves listingLinks) "http://e.co/" ⟨c9lp, Option.none⟩ 200
        ⟨[], [], ["http://e.co/r"], arts, flog, 1⟩ = CrawlStep.stop := rfl

set_option maxHeartbeats 1000000 in
theorem c9listingPass (leaves listingLinks : List String) :
    scrapeListing (c9site leaves listingLinks) "http://e.co/"
        ⟨c9lp, Option.none⟩ 200 5 =
      Except.ok (List.foldl setInsert [] (c9listingUrls listingLinks), [c9lp]) := by
  calc
    scrapeListing (c9site leaves listingLinks) "http://e.co/"
        ⟨c9lp, Option.none⟩ 200 5 =
        scrapeListingGo (c9site leaves listingLinks) "http://e.co/"
          ⟨c9lp, Option.none⟩ 200 5
          ⟨[c9lp], ["http://e.co/r"], [], [], [], 0⟩ := rfl
    _ = scrapeListingGo (c9site leaves listingLinks) "http://e.co/"
          ⟨c9lp, Option.none⟩ 200 4
          ⟨[], [], ["http://e.co/r"],
            List.foldl setInsert [] (c9listingUrls listingLinks), [] ++ [c9lp], 1⟩ :=
      scrapeListingGo_next 4 (c9cr1 leaves listingLinks)
    _ = Except.ok (List.foldl setInsert [] (c9listingUrls listingLinks), [c9lp]) := by
      rw [scrapeListingGo_stop 3 (c9cr2 leaves listingLinks _ _)]
      rfl

theorem discoverLoop_single (site : Site) (tu : String) (mp f : Nat)
    (l : ListingConfig) (st : DiscoverState) (urls flog : List String)
    (h : scrapeListing site tu l mp f = Except.ok (urls, flog)) :
    discoverLoop site tu mp f [l] st =
      if urls ≠ [] then
        ⟨List.foldl setInsert st.discovered urls, st.hadError, true, st.lastError⟩
      else st := by
  unfold discoverLoop
  rw [h]
  dsimp only
  by_cases hu : urls = []
  · rw [if_neg (fun hne => hne hu), if_neg (fun hne => hne hu)]
    rfl
  · rw [if_pos hu, if_pos hu]
    rfl


set_option maxHeartbeats 1000000 in
/-- C9: for a site whose sitemap index lists a `/storage/recipes-1.xml`
child and a `/storage/pages-1.xml` child, the sitemap pass fetches the
recipes child but never the pages child (excluded by the non-recipe
keyword filter), returns exactly the recipes child's accepted leaf
URLs, and `discover`'s accumulated set is the union of the sitemap
pass's results with the listing-page pass's results — whatever leaf
entries and listing links the site serves. -/
theorem C9_sitemap_exclusion_and_union (leaves listingLinks : List String)
    (hx : ∀ l ∈ leaves, strEndsWith (stripStr l) ".xml" = false ∧
      strEndsWith (stripStr l) ".xml.gz" = false)
    (hlen : leaves.length < 2000) :
    discoverFromSitemaps (c9site leaves listingLinks) "http://e.co/" 2000 10 =
      (locsFoldLeaf "http://e.co/" leaves [], [c9s1, c9s2, c9s3, c9s4, c9rc]) ∧
    c9pc ∉ (discoverFromSitemaps (c9site leaves listingLinks)
      "http://e.co/" 2000 10).2 ∧
    (∀ u, u ∈ (discoverUnion (c9site leaves listingLinks) c9tmpl
        200 2000 5 10 true).discovered ↔
      u ∈ locsFoldLeaf "http://e.co/" leaves [] ∨
        u ∈ c9listingUrls listingLinks) := by
  have hsm : discoverFromSitemaps (c9site leaves listingLinks)
      "http://e.co/" 2000 10 =
      (locsFoldLeaf "http://e.co/" leaves [], [c9s1, c9s2, c9s3, c9s4, c9rc]) := by
    calc
      discoverFromSitemaps (c9site leaves listingLinks) "http://e.co/" 2000 10 =
          discoverSitemapsGo (c9site leaves listingLinks) "http://e.co/" 2000 10
            ⟨[c9s1, c9s2, c9s3, c9s4], [], [], []⟩ := rfl
      _ = discoverSitemapsGo (c9site leaves listingLinks) "http://e.co/" 2000 9
            ⟨[c9s2, c9s3, c9s4, c9rc], [c9s1], [], [c9s1]⟩ :=
        discoverSitemapsGo_next 9 (c9sm1 leaves listingLinks)
      _ = discoverSitemapsGo (c9site leaves listingLinks) "http://e.co/" 2000 8
            ⟨[c9s3, c9s4, c9rc], [c9s2, c9s1], [], [c9s1, c9s2]⟩ :=
        discoverSitemapsGo_next 8 (c9sm2 leaves listingLinks)
      _ = discoverSitemapsGo (c9site leaves listingLinks) "http://e.co/" 2000 7
            ⟨[c9s4, c9rc], [c9s3, c9s2, c9s1], [], [c9s1, c9s2, c9s3]⟩ :=
        discoverSitemapsGo_next 7 (c9sm3 leaves listingLinks)
      _ = discoverSitemapsGo (c9site leaves listingLinks) "http://e.co/" 2000 6
            ⟨[c9rc], [c9s4, c9s3, c9s2, c9s1], [], [c9s1, c9s2, c9s3, c9s4]⟩ :=
        discoverSitemapsGo_next 6 (c9sm4 leaves listingLinks)
      _ = discoverSitemapsGo (c9site leaves listingLinks) "http://e.co/" 2000 5
            ⟨[], [c9rc, c9s4, c9s3, c9s2, c9s1],
              locsFoldLeaf "http://e.co/" leaves [],
              [c9s1, c9s2, c9s3, c9s4, c9rc]⟩ :=
        discoverSitemapsGo_next 5 (c9sm5 leaves listingLinks hx hlen)
      _ = (locsFoldLeaf "http://e.co/" leaves [],
            [c9s1, c9s2, c9s3, c9s4, c9rc]) :=
        discoverSitemapsGo_stop 4 rfl
  refine ⟨hsm, ?_, ?_⟩
  · rw [hsm]
    show c9pc ∉ [c9s1, c9s2, c9s3, c9s4, c9rc]
    decide
  · intro u
    have hdu : discoverUnion (c9site leaves listingLinks) c9tmpl
        200 2000 5 10 true =
        discoverLoop (c9site leaves listingLinks) "http://e.co/" 200 5
          [⟨c9lp, Option.none⟩]
          ⟨(discoverFromSitemaps (c9site leaves listingLinks)
            "http://e.co/" 2000 10).1, false, false, ""⟩ := rfl
    rw [hsm] at hdu
    dsimp only at hdu
    rw [discoverLoop_single (c9site leaves listingLinks) "http://e.co/" 200 5
      ⟨c9lp, Option.none⟩ _ _ _ (c9listingPass leaves listingLinks)] at hdu
    rw [hdu]
    by_cases hu : List.foldl setInsert [] (c9listingUrls listingLinks) = []
    · rw [if_neg (fun hne => hne hu)]
      dsimp only
      have hnomem : ¬(u ∈ c9listingUrls listingLinks) := by
        intro hmem
        have : u ∈ List.foldl setInsert [] (c9listingUrls listingLinks) :=
          mem_foldl_setInsert.mpr (Or.inr hmem)
        rw [hu] at this
        cases this
      exact ⟨fun h => Or.inl h, fun h => h.elim id (fun h2 => absurd h2 hnomem)⟩
    · rw [if_pos hu]
      dsimp only
      rw [mem_foldl_setInsert, mem_foldl_setInsert]
      constructor
      · rintro (h | h)
        · exact Or.inl h
        · exact h.elim (fun h2 => absurd h2 (List.not_mem_nil u)) Or.inr
      · rintro (h | h)
        · exact Or.inl h
        · exact Or.inr (Or.inr h)

/-- Concrete leaf entries for the C9 witness. -/
def c9wleaves : List String := ["http://e.co/rec/a/", "http://e.co/rec/b/"]

set_option maxHeartbeats 1000000 in
/-- Witness for C9 at concrete inputs: two ordinary recipe leaves in
the recipes child and one relative listing link. -/
theorem C9_sitemap_exclusion_and_union_witness :
    (∀ l ∈ c9wleaves, strEndsWith (stripStr l) ".xml" = false ∧
      strEndsWith (stripStr l) ".xml.gz" = false) ∧
    c9wleaves.length < 2000 ∧
    discoverFromSitemaps (c9site c9wleaves ["/r/x/"]) "http://e.co/" 2000 10 =
      (locsFoldLeaf "http://e.co/" c9wleaves [],
        [c9s1, c9s2, c9s3, c9s4, c9rc]) :=
  ⟨by decide, by decide,
   (C9_sitemap_exclusion_and_union c9wleaves ["/r/x/"]
     (by decide) (by decide)).1⟩

set_option maxHeartbeats 2000000 in
/-- C3 counterexample: an off-domain URL found via the listing's CSS
link selector is returned by `discover` — `_should_include_url` never
checks the domain, so the claim's acceptance rule (d) does not hold at
this discovery point. -/
theorem C3_offdomain_selector_link_returned :
    discover c3site c3tmpl 200 2000 5 5 false =
      Except.ok ["https://evil.com/spam-recipes/"] ∧
    sameDomain c3tmpl.url "https://evil.com/spam-recipes/" = false :=
  ⟨rfl, rfl⟩

/-- Python truthiness of an optional string: `None` and `""` are falsy. -/
def optTruthy : Option String → Bool
  | Option.none => false
  | Option.some s => !(s == "")

/-- Python `a or b` on optional strings. -/
def pyOrOpt (a b : Option String) : Option String :=
  if optTruthy a then a else b

/-- Python `a or b` on lists (empty lists are falsy). -/
def pyOrList (a b : List String) : List String :=
  if a = [] then b else a

/-- `dict.update` with a single key: replace the key's entry or append
it. -/
def dictSet : List (String × Json) → String → Json → List (String × Json)
  | [], k, v => [(k, v)]
  | (k1, v1) :: rest, k, v =>
    if k1 = k then (k, v) :: rest else (k1, v1) :: dictSet rest k v

/-- One structured-data (JSON-LD) recipe node, holding the values
`_populate_from_structured` reads off the parsed `dict`: string fields
as the corresponding `data.get(...)` results, sequence fields after
`_normalise_sequence`/`_normalise_instructions`/keyword splitting, and
the yield/image/author values after their list/dict coercions and
string conversion (`author` is `Option.none` when the coerced value is
not a string). -/
structure StructuredData where
  name : Option String := Option.none
  description : Option String := Option.none
  recipeIngredient : List String := []
  recipeInstructions : List String := []
  prepTime : Option String := Option.none
  cookTime : Option String := Option.none
  totalTime : Option String := Option.none
  recipeYield : Option String := Option.none
  image : Option String := Option.none
  author : Option String := Option.none
  recipeCategory : List String := []
  keywords : List String := []
  rawJson : Json := Json.null
deriving DecidableEq, Inhabited

/-- `ArticleScraper._populate_from_structured`: every assignment guards
on the recipe's current value, so a field already truthy is kept. -/
def populateFromStructured (r : Recipe) (d : StructuredData) : Recipe :=
  { r with title := pyOrOpt r.title d.name
         , description := pyOrOpt r.description d.description
         , ingredients := pyOrList r.ingredients d.recipeIngredient
         , instructions := pyOrList r.instructions d.recipeInstructions
         , prep_time := pyOrOpt r.prep_time d.prepTime
         , cook_time := pyOrOpt r.cook_time d.cookTime
         , total_time := pyOrOpt r.total_time d.totalTime
         , servings := if optTruthy d.recipeYield && !optTruthy r.servings then
             d.recipeYield else r.servings
         , image := if optTruthy d.image && !optTruthy r.image then
             d.image else r.image
         , author := match d.author with
           | Option.some a => if optTruthy r.author then r.author else Option.some a
           | Option.none => r.author
         , categories := pyOrList r.categories d.recipeCategory
         , tags := pyOrList r.tags d.keywords
         , raw := dictSet r.raw "json_ld" d.rawJson }

/-- `RecipeSection`, with the image candidates `_resolve_section_image`
finds on the section's heading and container flattened into a list. -/
structure RecipeSection where
  title : Option String := Option.none
  anchor : Option String := Option.none
  ingredients : List String := []
  instructions : List String := []
  image : Option String := Option.none
  domImages : List String := []
deriving DecidableEq, Inhabited

/-- `_dedupe_preserve_order`. -/
def dedupePreserveOrder (items : List String) : List String :=
  items.foldl (fun acc item => if item ∈ acc then acc else acc ++ [item]) []

/-- The `consider` helper of `_resolve_section_image`: a candidate with
non-blank stripped text resolves to its absolute URL, falling back to
the cleaned text when resolution is blank (a non-blank candidate always
yields a truthy result, so the helper's duplicate-skipping set never
changes which candidate wins). -/
def considerImage (baseUrl : String) : Option String → Option String
  | Option.none => Option.none
  | Option.some cand =>
    if cand = "" then Option.none
    else if stripStr cand = "" then Option.none
    else if urljoin baseUrl (stripStr cand) = "" then Option.some (stripStr cand)
    else Option.some (urljoin baseUrl (stripStr cand))

/-- `_resolve_section_image`: the first of the section's own image and
its heading/container images that survives `consider`. -/
def resolveSectionImage (s : RecipeSection) (baseUrl : String) : Option String :=
  (s.image :: s.domImages.map Option.some).foldl
    (fun acc c => match acc with
      | Option.some v => Option.some v
      | Option.none => considerImage baseUrl c) Option.none

/-- `ArticleScraper._populate_from_section`: the section's title and
image overwrite the recipe's when `prefer_section` is set (multi-recipe
mode); ingredients and instructions only ever fill empty fields. -/
def populateFromSection (r : Recipe) (s : RecipeSection) (baseUrl : String)
    (preferSection : Bool) : Recipe :=
  { r with title := if optTruthy s.title && (preferSection || !optTruthy r.title)
             then s.title else r.title
         , ingredients := if s.ingredients ≠ [] ∧ r.ingredients = [] then
             dedupePreserveOrder s.ingredients else r.ingredients
         , instructions := if s.instructions ≠ [] ∧ r.instructions = [] then
             dedupePreserveOrder s.instructions else r.instructions
         , image := if preferSection || !optTruthy r.image then
             (if optTruthy (resolveSectionImage s baseUrl) then
               resolveSectionImage s baseUrl else r.image)
             else r.image }

/-- What the configured CSS selectors (with their WPRM, microdata and
semi-structured fallbacks for list fields, over content and full soup)
would extract from the page for each recipe field: `Option.none`/`[]`
when the config has no selectors for the field or they match
nothing. -/
structure SelectorResults where
  title : Option String := Option.none
  description : Option String := Option.none
  ingredients : List String := []
  instructions : List String := []
  prep_time : Option String := Option.none
  cook_time : Option String := Option.none
  total_time : Option String := Option.none
  servings : Option String := Option.none
  image : Option String := Option.none
  author : Option String := Option.none
  categories : List String := []
  tags : List String := []
deriving DecidableEq, Inhabited

/-- One scalar field of `_populate_from_selectors`: write only when the
current value is falsy and the extracted value truthy. -/
def selScalar (cur v : Option String) : Option String :=
  if optTruthy cur then cur else if optTruthy v then v else cur

/-- One list field of `_populate_from_selectors`: write only when the
current value is empty and the extracted list non-empty. -/
def selList (cur v : List String) : List String :=
  if cur = [] then (if v = [] then cur else v) else cur

/-- `ArticleScraper._populate_from_selectors`: a field whose current
value is truthy is skipped before extraction, so it is never
overwritten; in multi-recipe mode `skip_fields` drops the ingredients
and instructions fields entirely. -/
def populateFromSelectors (r : Recipe) (sel : SelectorResults)
    (skipListFields : Bool) : Recipe :=
  { r with title := selScalar r.title sel.title
         , description := selScalar r.description sel.description
         , ingredients := if skipListFields then r.ingredients
             else selList r.ingredients sel.ingredients
         , instructions := if skipListFields then r.instructions
             else selList r.instructions sel.instructions
         , prep_time := selScalar r.prep_time sel.prep_time
         , cook_time := selScalar r.cook_time sel.cook_time
         , total_time := selScalar r.total_time sel.total_time
         , servings := selScalar r.servings sel.servings
         , image := selScalar r.image sel.image
         , author := selScalar r.author sel.author
         , categories := selList r.categories sel.categories
         , tags := selList r.tags sel.tags }

/-- `ArticleScraper._apply_generic_fallbacks`, with the first truthy
generic title value and the first generic image candidate whose
normalised URL is truthy abstracted as page-level inputs: both only
fill fields that are still falsy. -/
def applyGenericFallbacks (r : Recipe) (fbTitle fbImage : Option String) :
    Recipe :=
  { r with title := if !optTruthy r.title && optTruthy fbTitle then
             fbTitle else r.title
         , image := if !optTruthy r.image && optTruthy fbImage then
             fbImage else r.image }

/-- Decimal digit character. -/
def digitChar (n : Nat) : Char := Char.ofNat (48 + n)

/-- Decimal digits of a number, most significant first (structural
fuel). -/
def natDigits : Nat → Nat → List Char
  | 0, _ => []
  | fuel + 1, n =>
    if n < 10 then [digitChar n]
    else natDigits fuel (n / 10) ++ [digitChar (n % 10)]

/-- Decimal rendering of a natural number. -/
def natToStr (n : Nat) : String := ⟨natDigits (n + 1) n⟩

/-- Characters the slug regex `[^a-z0-9]+` keeps. -/
def isSlugChar (c : Char) : Bool :=
  (97 ≤ c.toNat && c.toNat ≤ 122) || (48 ≤ c.toNat && c.toNat ≤ 57)

/-- `_SLUG_RE.sub("-", ...)`: each maximal run of non-slug characters
becomes a single dash (the flag records that a run is in progress). -/
def slugifyGo : Bool → List Char → List Char
  | _, [] => []
  | inRun, c :: rest =>
    if isSlugChar c then c :: slugifyGo false rest
    else if inRun then slugifyGo true rest
    else Char.ofNat 45 :: slugifyGo true rest

/-- Drop leading dashes. -/
def dropLeadingDash : List Char → List Char
  | [] => []
  | c :: rest => if c = Char.ofNat 45 then dropLeadingDash rest else c :: rest

/-- Python `str.strip("-")`. -/
def stripDashChars (cs : List Char) : List Char :=
  (dropLeadingDash (dropLeadingDash cs).reverse).reverse

/-- `_slugify`. -/
def slugify : Option String → String
  | Option.none => ""
  | Option.some s =>
    if s = "" then ""
    else ⟨stripDashChars (slugifyGo false (lowerStr s).data)⟩

/-- Drop leading `#` characters (Python `lstrip("#")`). -/
def dropLeadingHashes : List Char → List Char
  | [] => []
  | c :: rest => if c = '#' then dropLeadingHashes rest else c :: rest

/-- The `while candidate in used` loop of `_ensure_unique_anchor`,
bounded by structural fuel: the candidates tried are pairwise distinct,
so `used.length + 2` rounds always reach a free one. -/
def ensureUniqueGo (anchor : String) (used : List String) :
    Nat → String → Nat → String
  | 0, cand, _ => cand
  | fuel + 1, cand, idx =>
    if cand ∈ used then
      ensureUniqueGo anchor used fuel (anchor ++ "-" ++ natToStr idx) (idx + 1)
    else cand

/-- `_ensure_unique_anchor`: returns the free candidate and the grown
used set. -/
def ensureUniqueAnchor (anchor : String) (used : List String) :
    String × List String :=
  let c := ensureUniqueGo anchor used (used.length + 2) anchor 2
  (c, c :: used)

/-- The `for candidate in (...)` fallback loop of
`_resolve_section_anchor`: the first candidate with a non-empty slug
wins, prefixed with `recipe-` when needed. -/
def anchorPick (idx : Nat) (used : List String) :
    List (Option String) → String × List String
  | [] => ensureUniqueAnchor ("recipe-" ++ natToStr (idx + 1)) used
  | c :: rest =>
    let slug := slugify c
    if slug ≠ "" then
      if strStartsWith slug "recipe-" then ensureUniqueAnchor slug used
      else ensureUniqueAnchor ("recipe-" ++ slug) used
    else anchorPick idx used rest

/-- `_resolve_section_anchor`. -/
def resolveSectionAnchor (sec : Option RecipeSection) (idx : Nat)
    (fallbackTitle : Option String) (used : List String) :
    String × List String :=
  let explicitAnchor :=
    match sec with
    | Option.some s =>
      match s.anchor with
      | Option.some a =>
        if a = "" then ""
        else String.mk (dropLeadingHashes (stripStr a).data)
      | Option.none => ""
    | Option.none => ""
  if explicitAnchor ≠ "" then ensureUniqueAnchor explicitAnchor used
  else
    anchorPick idx used
      [match sec with
       | Option.some s => s.title
       | Option.none => Option.none,
       fallbackTitle,
       Option.some ("recipe-" ++ natToStr (idx + 1))]

/-- The data the article scraper reads off a fetched page: the final
response URL, the parsed structured-data recipe nodes, the DOM recipe
sections, what the configured selectors yield, and the generic
title/image fallback values. -/
structure ArticlePage where
  responseUrl : String
  structured : List StructuredData := []
  sections : List RecipeSection := []
  selectors : SelectorResults := {}
  fallbackTitle : Option String := Option.none
  fallbackImage : Option String := Option.none
deriving Inhabited

/-- `_validate_recipe` as a predicate: a recipe passes when it has
ingredients or instructions. -/
def validRecipe (r : Recipe) : Bool :=
  !r.ingredients.isEmpty || !r.instructions.isEmpty

/-- The message of the `ArticleExtractionError` raised by
`_validate_recipe` and by the final empty-result check. -/
def validateMsg (u : String) : String :=
  "Missing ingredients and instructions while scraping " ++ u

/-- The state of the per-index recipe right after the structured-data
pass: a fresh `Recipe` for the index, populated from the index's
JSON-LD node when there is one. -/
def structuredRecipe (tmplName baseRespUrl : String) (page : ArticlePage)
    (idx : Nat) : Recipe :=
  let r0 : Recipe := { source_name := tmplName, source_url := baseRespUrl }
  match page.structured.get? idx with
  | Option.some d => populateFromStructured r0 d
  | Option.none => r0

/-- The body of `scrape`'s per-index loop up to (and excluding) the
multi-mode anchor rewrite: the structured-data pass, then the selector
pass (list fields skipped in multi-recipe mode), the section pass
(`prefer_section` in multi-recipe mode) and the generic fallbacks. -/
def pipelineRecipe (tmplName baseRespUrl : String) (page : ArticlePage)
    (idx : Nat) (multiMode : Bool) : Recipe :=
  let r1 := structuredRecipe tmplName baseRespUrl page idx
  let r2 := populateFromSelectors r1 page.selectors multiMode
  let r3 := match page.sections.get? idx with
    | Option.some s => populateFromSection r2 s baseRespUrl multiMode
    | Option.none => r2
  applyGenericFallbacks r3 page.fallbackTitle page.fallbackImage

/-- The multi-mode source-URL rewrite of `scrape`: resolve a unique
anchor and point the recipe at `base#anchor`. -/
def anchorRecipe (baseRespUrl baseUrl : String) (page : ArticlePage)
    (idx : Nat) (r : Recipe) (used : List String) : Recipe × List String :=
  let pair := resolveSectionAnchor (page.sections.get? idx) idx r.title used
  ({ r with source_url :=
      (if baseUrl ≠ "" then baseUrl else baseRespUrl) ++ "#" ++ pair.1 },
   pair.2)

/-- One index's fully-built candidate recipe (anchor rewrite applied in
multi-recipe mode) and the updated anchor set. -/
def buildCandidate (tmplName baseRespUrl baseUrl : String) (page : ArticlePage)
    (idx : Nat) (multiMode : Bool) (used : List String) :
    Recipe × List String :=
  let r := pipelineRecipe tmplName baseRespUrl page idx multiMode
  if multiMode then anchorRecipe baseRespUrl baseUrl page idx r used
  else (r, used)

/-- The `for index in range(recipe_count)` loop of `scrape`, by
remaining count: an invalid candidate raises in single-recipe mode and
is dropped in multi-recipe mode. -/
def scrapeGo (tmplName url baseRespUrl baseUrl : String) (page : ArticlePage)
    (multiMode : Bool) : Nat → Nat → List Recipe → List String →
    Except String (List Recipe)
  | _, 0, recipes, _ => Except.ok recipes
  | idx, rem + 1, recipes, used =>
    let pair := buildCandidate tmplName baseRespUrl baseUrl page idx multiMode used
    if validRecipe pair.1 then
      scrapeGo tmplName url baseRespUrl baseUrl page multiMode
        (idx + 1) rem (recipes ++ [pair.1]) pair.2
    else if multiMode then
      scrapeGo tmplName url baseRespUrl baseUrl page multiMode
        (idx + 1) rem recipes pair.2
    else Except.error (validateMsg pair.1.source_url)

/-- All per-index candidate recipes, before validation (the anchor set
still threads through dropped candidates, as in the source). -/
def scrapeCandidatesGo (tmplName baseRespUrl baseUrl : String)
    (page : ArticlePage) (multiMode : Bool) :
    Nat → Nat → List String → List Recipe
  | _, 0, _ => []
  | idx, rem + 1, used =>
    let pair := buildCandidate tmplName baseRespUrl baseUrl page idx multiMode used
    pair.1 :: scrapeCandidatesGo tmplName baseRespUrl baseUrl page multiMode
      (idx + 1) rem pair.2

/-- `recipe_count = max(len(structured_recipes), len(sections), 1)`. -/
def recipeCount (page : ArticlePage) : Nat :=
  max (max page.structured.length page.sections.length) 1

/-- `ArticleScraper.scrape` over the page data: run the per-index loop
and raise when no recipe survived validation. -/
def scrapeArticlePage (tmplName url : String) (page : ArticlePage) :
    Except String (List Recipe) :=
  let count := recipeCount page
  let multiMode := decide (1 < count)
  let baseRespUrl := page.responseUrl
  let baseUrl := normaliseBaseUrl baseRespUrl
  match scrapeGo tmplName url baseRespUrl baseUrl page multiMode 0 count [] [] with
  | Except.error e => Except.error e
  | Except.ok recipes =>
    if recipes = [] then Except.error (validateMsg url)
    else Except.ok recipes

/-- The candidate list `scrape` validates, one per index. -/
def scrapeCandidates (tmplName : String) (page : ArticlePage) : List Recipe :=
  scrapeCandidatesGo tmplName page.responseUrl (normaliseBaseUrl page.responseUrl)
    page (decide (1 < recipeCount page)) 0 (recipeCount page) []

theorem selScalar_keep (cur v : Option String) (h : optTruthy cur = true) :
    selScalar cur v = cur := by
  unfold selScalar
  rw [if_pos h]

theorem selList_keep (cur v : List String) (h : cur ≠ []) :
    selList cur v = cur := by
  unfold selList
  rw [if_neg h]

theorem pfSel_title (r : Recipe) (sel : SelectorResults) (m : Bool)
    (h : optTruthy r.title = true) :
    (populateFromSelectors r sel m).title = r.title := by
  dsimp only [populateFromSelectors]
  exact selScalar_keep _ _ h

theorem pfSel_description (r : Recipe) (sel : SelectorResults) (m : Bool)
    (h : optTruthy r.description = true) :
    (populateFromSelectors r sel m).description = r.description := by
  dsimp only [populateFromSelectors]
  exact selScalar_keep _ _ h

theorem pfSel_ingredients (r : Recipe) (sel : SelectorResults) (m : Bool)
    (h : r.ingredients ≠ []) :
    (populateFromSelectors r sel m).ingredients = r.ingredients := by
  dsimp only [populateFromSelectors]
  cases m
  · show selList r.ingredients sel.ingredients = r.ingredients
    exact selList_keep _ _ h
  · rfl

theorem pfSel_instructions (r : Recipe) (sel : SelectorResults) (m : Bool)
    (h : r.instructions ≠ []) :
    (populateFromSelectors r sel m).instructions = r.instructions := by
  dsimp only [populateFromSelectors]
  cases m
  · show selList r.instructions sel.instructions = r.instructions
    exact selList_keep _ _ h
  · rfl

theorem pfSel_image (r : Recipe) (sel : SelectorResults) (m : Bool)
    (h : optTruthy r.image = true) :
    (populateFromSelectors r sel m).image = r.image := by
  dsimp only [populateFromSelectors]
  exact selScalar_keep _ _ h

theorem pfSel_prep (r : Recipe) (sel : SelectorResults) (m : Bool)
    (h : optTruthy r.prep_time = true) :
    (populateFromSelectors r sel m).prep_time = r.prep_time := by
  dsimp only [populateFromSelectors]
  exact selScalar_keep _ _ h

theorem pfSel_cook (r : Recipe) (sel : SelectorResults) (m : Bool)
    (h : optTruthy r.cook_time = true) :
    (populateFromSelectors r sel m).cook_time = r.cook_time := by
  dsimp only [populateFromSelectors]
  exact selScalar_keep _ _ h

theorem pfSel_total (r : Recipe) (sel : SelectorResults) (m : Bool)
    (h : optTruthy r.total_time = true) :
    (populateFromSelectors r sel m).total_time = r.total_time := by
  dsimp only [populateFromSelectors]
  exact selScalar_keep _ _ h

theorem pfSel_servings (r : Recipe) (sel : SelectorResults) (m : Bool)
    (h : optTruthy r.servings = true) :
    (populateFromSelectors r sel m).servings = r.servings := by
  dsimp only [populateFromSelectors]
  exact selScalar_keep _ _ h

theorem pfSel_author (r : Recipe) (sel : SelectorResults) (m : Bool)
    (h : optTruthy r.author = true) :
    (populateFromSelectors r sel m).author = r.author := by
  dsimp only [populateFromSelectors]
  exact selScalar_keep _ _ h

theorem pfSel_categories (r : Recipe) (sel : SelectorResults) (m : Bool)
    (h : r.categories ≠ []) :
    (populateFromSelectors r sel m).categories = r.categories := by
  dsimp only [populateFromSelectors]
  exact selList_keep _ _ h

theorem pfSel_tags (r : Recipe) (sel : SelectorResults) (m : Bool)
    (h : r.tags ≠ []) :
    (populateFromSelectors r sel m).tags = r.tags := by
  dsimp only [populateFromSelectors]
  exact selList_keep _ _ h

theorem pfSec_title_single (r : Recipe) (s : RecipeSection) (b : String)
    (h : optTruthy r.title = true) :
    (populateFromSection r s b false).title = r.title := by
  dsimp only [populateFromSection]
  rw [if_neg (by simp [h])]

theorem pfSec_image_single (r : Recipe) (s : RecipeSection) (b : String)
    (h : optTruthy r.image = true) :
    (populateFromSection r s b false).image = r.image := by
  dsimp only [populateFromSection]
  rw [if_neg (by simp [h])]

theorem pfSec_ingredients (r : Recipe) (s : RecipeSection) (b : String)
    (m : Bool) (h : r.ingredients ≠ []) :
    (populateFromSection r s b m).ingredients = r.ingredients := by
  dsimp only [populateFromSection]
  rw [if_neg (fun hc => h hc.2)]

theorem pfSec_instructions (r : Recipe) (s : RecipeSection) (b : String)
    (m : Bool) (h : r.instructions ≠ []) :
    (populateFromSection r s b m).instructions = r.instructions := by
  dsimp only [populateFromSection]
  rw [if_neg (fun hc => h hc.2)]

theorem fb_title (r : Recipe) (fbT fbI : Option String)
    (h : optTruthy r.title = true) :
    (applyGenericFallbacks r fbT fbI).title = r.title := by
  dsimp only [applyGenericFallbacks]
  rw [if_neg (by simp [h])]

theorem fb_image (r : Recipe) (fbT fbI : Option String)
    (h : optTruthy r.image = true) :
    (applyGenericFallbacks r fbT fbI).image = r.image := by
  dsimp only [applyGenericFallbacks]
  rw [if_neg (by simp [h])]

/-- C4 (amended): a field the structured-data pass filled is never
overwritten by the selector pass, the section pass or the generic
fallbacks — except that in multi-recipe mode the section pass's
`prefer_section` flag overwrites the title and image.  Here `r1` is the
per-index recipe right after the structured-data pass and `r` the
recipe the pipeline hands to validation. -/
theorem C4_structured_first_writer_wins (tmplName baseRespUrl : String)
    (page : ArticlePage) (idx : Nat) (multiMode : Bool) (r1 r : Recipe)
    (h1 : r1 = structuredRecipe tmplName baseRespUrl page idx)
    (hr : r = pipelineRecipe tmplName baseRespUrl page idx multiMode) :
    (multiMode = false → optTruthy r1.title = true → r.title = r1.title) ∧
    (optTruthy r1.description = true → r.description = r1.description) ∧
    (r1.ingredients ≠ [] → r.ingredients = r1.ingredients) ∧
    (r1.instructions ≠ [] → r.instructions = r1.instructions) ∧
    (multiMode = false → optTruthy r1.image = true → r.image = r1.image) ∧
    (optTruthy r1.prep_time = true → r.prep_time = r1.prep_time) ∧
    (optTruthy r1.cook_time = true → r.cook_time = r1.cook_time) ∧
    (optTruthy r1.total_time = true → r.total_time = r1.total_time) ∧
    (optTruthy r1.servings = true → r.servings = r1.servings) ∧
    (optTruthy r1.author = true → r.author = r1.author) ∧
    (r1.categories ≠ [] → r.categories = r1.categories) ∧
    (r1.tags ≠ [] → r.tags = r1.tags) := by
  subst h1
  subst hr
  unfold pipelineRecipe
  dsimp only
  generalize structuredRecipe tmplName baseRespUrl page idx = R
  cases hs : page.sections.get? idx with
  | none =>
    refine ⟨?_, ?_, ?_, ?_, ?_, ?_, ?_, ?_, ?_, ?_, ?_, ?_⟩
    · intro hm h
      subst hm
      have h2 := pfSel_title R page.selectors false h
      rw [fb_title _ _ _ (by rw [h2]; exact h), h2]
    · intro h
      exact pfSel_description R page.selectors multiMode h
    · intro h
      exact pfSel_ingredients R page.selectors multiMode h
    · intro h
      exact pfSel_instructions R page.selectors multiMode h
    · intro hm h
      subst hm
      have h2 := pfSel_image R page.selectors false h
      rw [fb_image _ _ _ (by rw [h2]; exact h), h2]
    · intro h
      exact pfSel_prep R page.selectors multiMode h
    · intro h
      exact pfSel_cook R page.selectors multiMode h
    · intro h
      exact pfSel_total R page.selectors multiMode h
    · intro h
      exact pfSel_servings R page.selectors multiMode h
    · intro h
      exact pfSel_author R page.selectors multiMode h
    · intro h
      exact pfSel_categories R page.selectors multiMode h
    · intro h
      exact pfSel_tags R page.selectors multiMode h
  | some s =>
    refine ⟨?_, ?_, ?_, ?_, ?_, ?_, ?_, ?_, ?_, ?_, ?_, ?_⟩
    · intro hm h
      subst hm
      have h2 := pfSel_title R page.selectors false h
      have h3 : (populateFromSection (populateFromSelectors R page.selectors false)
          s baseRespUrl false).title = R.title := by
        rw [pfSec_title_single _ _ _ (by rw [h2]; exact h), h2]
      rw [fb_title _ _ _ (by rw [h3]; exact h), h3]
    · intro h
      exact pfSel_description R page.selectors multiMode h
    · intro h
      show (populateFromSection (populateFromSelectors R page.selectors multiMode)
        s baseRespUrl multiMode).ingredients = R.ingredients
      have h2 := pfSel_ingredients R page.selectors multiMode h
      rw [pfSec_ingredients _ _ _ _ (by rw [h2]; exact h), h2]
    · intro h
      show (populateFromSection (populateFromSelectors R page.selectors multiMode)
        s baseRespUrl multiMode).instructions = R.instructions
      have h2 := pfSel_instructions R page.selectors multiMode h
      rw [pfSec_instructions _ _ _ _ (by rw [h2]; exact h), h2]
    · intro hm h
      subst hm
      have h2 := pfSel_image R page.selectors false h
      have h3 : (populateFromSection (populateFromSelectors R page.selectors false)
          s baseRespUrl false).image = R.image := by
        rw [pfSec_image_single _ _ _ (by rw [h2]; exact h), h2]
      rw [fb_image _ _ _ (by rw [h3]; exact h), h3]
    · intro h
      exact pfSel_prep R page.selectors multiMode h
    · intro h
      exact pfSel_cook R page.selectors multiMode h
    · intro h
      exact pfSel_total R page.selectors multiMode h
    · intro h
      exact pfSel_servings R page.selectors multiMode h
    · intro h
      exact pfSel_author R page.selectors multiMode h
    · intro h
      exact pfSel_categories R page.selectors multiMode h
    · intro h
      exact pfSel_tags R page.selectors multiMode h

/-- The page of the C4 counterexample: two structured-data recipes (so
multi-recipe mode), the first named "A", and one DOM section titled
"B". -/
def c4page : ArticlePage :=
  { responseUrl := "http://e.co/a"
  , structured := [{ name := Option.some "A", recipeIngredient := ["i1"] },
      { recipeIngredient := ["i2"] }]
  , sections := [{ title := Option.some "B" }] }

/-- The first recipe `scrape` returns on the C4 counterexample page. -/
def c4rec0 : Recipe :=
  { source_name := "T", source_url := "http://e.co/a#recipe-b"
  , title := Option.some "B", ingredients := ["i1"]
  , raw := [("json_ld", Json.null)] }

/-- The second recipe `scrape` returns on the C4 counterexample page. -/
def c4rec1 : Recipe :=
  { source_name := "T", source_url := "http://e.co/a#recipe-2"
  , ingredients := ["i2"], raw := [("json_ld", Json.null)] }

set_option maxHeartbeats 1000000 in
/-- C4 counterexample: in multi-recipe mode the structured-data pass
fills the title ("A"), yet the section pass's `prefer_section` flag
overwrites it with the section title ("B") in the returned recipe. -/
theorem C4_multi_section_overwrites_structured_title :
    recipeCount c4page = 2 ∧
    (structuredRecipe "T" "http://e.co/a" c4page 0).title = Option.some "A" ∧
    (pipelineRecipe "T" "http://e.co/a" c4page 0 true).title = Option.some "B" ∧
    scrapeArticlePage "T" "http://e.co/a" c4page = Except.ok [c4rec0, c4rec1] :=
  ⟨rfl, rfl, rfl, rfl⟩

/-- The structured-data node of the C4 witness page. -/
def c4wsd : StructuredData where
  name := Option.some "A"
  description := Option.some "D"
  recipeIngredient := ["i"]

/-- The single-recipe page of the C4 witness: structured data fills
title, description and ingredients; a selector would yield another
title. -/
def c4wpage : ArticlePage :=
  { responseUrl := "http://e.co/a"
  , structured := [c4wsd]
  , selectors := { title := Option.some "X" } }

/-- Witness for C4 at a concrete single-recipe page: the
structured-data title survives a competing selector title. -/
theorem C4_structured_first_writer_wins_witness :
    optTruthy (structuredRecipe "T" "http://e.co/a" c4wpage 0).title = true ∧
    (pipelineRecipe "T" "http://e.co/a" c4wpage 0 false).title =
      (structuredRecipe "T" "http://e.co/a" c4wpage 0).title :=
  ⟨by decide,
   (C4_structured_first_writer_wins "T" "http://e.co/a" c4wpage 0 false _ _
     rfl rfl).1 rfl (by decide)⟩

theorem scrapeGo_multi (tmplName url baseRespUrl baseUrl : String)
    (page : ArticlePage) :
    ∀ (rem idx : Nat) (recipes : List Recipe) (used : List String),
      scrapeGo tmplName url baseRespUrl baseUrl page true idx rem recipes used =
        Except.ok (recipes ++
          (scrapeCandidatesGo tmplName baseRespUrl baseUrl page true
            idx rem used).filter validRecipe) := by
  intro rem
  induction rem with
  | zero =>
    intro idx recipes used
    show Except.ok recipes = _
    rw [show scrapeCandidatesGo tmplName baseRespUrl baseUrl page true idx 0 used
      = [] from rfl]
    rw [List.filter_nil, List.append_nil]
  | succ n ih =>
    intro idx recipes used
    unfold scrapeGo scrapeCandidatesGo
    dsimp only
    rw [List.filter_cons]
    by_cases hv : validRecipe
        (buildCandidate tmplName baseRespUrl baseUrl page idx true used).1 = true
    · rw [if_pos hv, if_pos hv, ih, List.append_assoc]
      rfl
    · rw [if_neg hv, if_neg hv]
      show scrapeGo tmplName url baseRespUrl baseUrl page true (idx + 1) n recipes
        (buildCandidate tmplName baseRespUrl baseUrl page idx true used).2 = _
      rw [ih]

theorem scrapeGo_single_one (tmplName url baseRespUrl baseUrl : String)
    (page : ArticlePage) (idx : Nat) (recipes : List Recipe)
    (used : List String) :
    scrapeGo tmplName url baseRespUrl baseUrl page false idx 1 recipes used =
      (if validRecipe
          (buildCandidate tmplName baseRespUrl baseUrl page idx false used).1 = true
        then Except.ok (recipes ++
          [(buildCandidate tmplName baseRespUrl baseUrl page idx false used).1])
        else Except.error (validateMsg
          (buildCandidate tmplName baseRespUrl baseUrl page idx
            false used).1.source_url)) := by
  show (if validRecipe
      (buildCandidate tmplName baseRespUrl baseUrl page idx false used).1 = true
    then scrapeGo tmplName url baseRespUrl baseUrl page false (idx + 1) 0
      (recipes ++
        [(buildCandidate tmplName baseRespUrl baseUrl page idx false used).1])
      (buildCandidate tmplName baseRespUrl baseUrl page idx false used).2
    else Except.error (validateMsg
      (buildCandidate tmplName baseRespUrl baseUrl page idx
        false used).1.source_url)) = _
  by_cases hv : validRecipe
      (buildCandidate tmplName baseRespUrl baseUrl page idx false used).1 = true
  · rw [if_pos hv, if_pos hv]
    rfl
  · rw [if_neg hv, if_neg hv]

theorem scrapeCandidatesGo_one (tmplName baseRespUrl baseUrl : String)
    (page : ArticlePage) (idx : Nat) (used : List String) :
    scrapeCandidatesGo tmplName baseRespUrl baseUrl page false idx 1 used =
      [(buildCandidate tmplName baseRespUrl baseUrl page idx false used).1] := rfl

/-- C5: a candidate with neither ingredients nor instructions never
survives — `scrape` returns exactly the validated candidates, and it
raises `ArticleExtractionError` exactly when no candidate survives
validation (in single-recipe mode the one invalid candidate raises, in
multi-recipe mode invalid sub-recipes are dropped and the final
empty-result check raises). -/
theorem C5_validation_boundary (tmplName url : String) (page : ArticlePage) :
    (scrapeArticlePage tmplName url page =
        Except.ok ((scrapeCandidates tmplName page).filter validRecipe) ↔
      (scrapeCandidates tmplName page).filter validRecipe ≠ []) ∧
    ((∃ e, scrapeArticlePage tmplName url page = Except.error e) ↔
      (scrapeCandidates tmplName page).filter validRecipe = []) := by
  have hc1 : 1 ≤ recipeCount page := Nat.le_max_right _ 1
  have key : ((scrapeCandidates tmplName page).filter validRecipe ≠ [] →
      scrapeArticlePage tmplName url page =
        Except.ok ((scrapeCandidates tmplName page).filter validRecipe)) ∧
      ((scrapeCandidates tmplName page).filter validRecipe = [] →
        ∃ e, scrapeArticlePage tmplName url page = Except.error e) := by
    rcases Nat.lt_or_ge 1 (recipeCount page) with hgt | hle
    · have hm : decide (1 < recipeCount page) = true := decide_eq_true hgt
      unfold scrapeArticlePage scrapeCandidates
      dsimp only
      rw [hm]
      rw [scrapeGo_multi tmplName url page.responseUrl
        (normaliseBaseUrl page.responseUrl) page (recipeCount page) 0 [] []]
      dsimp only
      rw [List.nil_append]
      constructor
      · intro hne
        rw [if_neg hne]
      · intro h0
        rw [if_pos h0]
        exact ⟨_, rfl⟩
    · have hceq : recipeCount page = 1 := Nat.le_antisymm hle hc1
      have hm : decide (1 < recipeCount page) = false := by
        rw [hceq]
        rfl
      unfold scrapeArticlePage scrapeCandidates
      dsimp only
      rw [hm, hceq]
      rw [scrapeGo_single_one tmplName url page.responseUrl
        (normaliseBaseUrl page.responseUrl) page 0 [] []]
      rw [scrapeCandidatesGo_one tmplName page.responseUrl
        (normaliseBaseUrl page.responseUrl) page 0 []]
      rw [List.filter_cons]
      by_cases hv : validRecipe (buildCandidate tmplName page.responseUrl
          (normaliseBaseUrl page.responseUrl) page 0 false []).1 = true
      · rw [if_pos hv, if_pos hv]
        dsimp only
        rw [List.nil_append, List.filter_nil]
        constructor
        · intro hne
          rw [if_neg (by intro h; cases h)]
        · intro h0
          cases h0
      · rw [if_neg hv, if_neg hv]
        dsimp only
        rw [List.filter_nil]
        constructor
        · intro hne
          cases hne rfl
        · intro h0
          exact ⟨_, rfl⟩
  constructor
  · constructor
    · intro heq
      intro h0
      obtain ⟨e, he⟩ := key.2 h0
      rw [he] at heq
      exact Except.noConfusion heq
    · exact key.1
  · constructor
    · rintro ⟨e, he⟩
      by_cases h0 : (scrapeCandidates tmplName page).filter validRecipe = []
      · exact h0
      · rw [key.1 h0] at he
        exact Except.noConfusion he
    · exact key.2

end RecipeRepo
